import Mathlib

/-!
Shallow embedding of the change-review backend of `ledger-mpv`
(`src/backend/src/server.ts`), covering the records and request handlers
that the specification's claims are about: ChangeSet approve/apply, the
INVENTORY_DIFF and WEEKLY_MEAL_PLAN appliers, task status updates with the
BUY_RESOURCE completion side effect, LensRun processing, and track creation.

Conventions of the embedding:
* Row identifiers (UUIDs in the source) are `Nat`; a store-wide counter
  `nextId` hands out fresh ids, mirroring uuid generation.
* Timestamps are `Nat` (an abstract clock value `now` is threaded in).
* `quantity` (a JS number in the source) is modeled as `Int`; every
  operation the claims exercise on quantities is exact addition or
  comparison, which the integer model preserves.
* Optional / possibly-absent JSON fields are `Option`; a JS falsy check on
  an id is modeled as a check for `none`.
* Each Prisma write goes through `dbWrite`, which can be made to throw via
  the `writesLeft` fault budget: `none` means writes never fail, `some n`
  means the n-th subsequent write throws.  A thrown write aborts the
  handler (HTTP 500 via the route's catch) without rolling back earlier
  writes, exactly as in the source (there are no transactions).
* `logAudit` swallows write failures, as the source's try/catch does.
-/

namespace Ledger

/-- EntityActor row: membership of an actor in an entity with a role. -/
structure Membership where
  entityId : Nat
  actorId : Nat
  role : String
deriving Repr, DecidableEq

/-- InventoryItem row: quantity of a resource at a location, scoped to an entity. -/
structure InventoryItem where
  id : Nat
  entityId : Nat
  resourceId : Option Nat
  locationId : Option Nat
  quantity : Int
  expiresAt : Option Nat := none
deriving Repr, DecidableEq

/-- The metadata JSON blob carried by BUY_RESOURCE tasks. -/
structure TaskMeta where
  inventoryItemId : Option Nat := none
  resourceId : Option Nat := none
  locationId : Option Nat := none
  quantity : Option Int := none
deriving Repr, DecidableEq

/-- Task row. `changeSetIds` models the implicit many-to-many join used by
the bookkeeping APPLY_CHANGESET task (`changeSets: connect`). -/
structure Task where
  id : Nat
  entityId : Nat
  type : String
  status : String
  goalId : Option Nat := none
  solutionId : Option Nat := none
  stepId : Option Nat := none
  locationId : Option Nat := none
  title : Option String := none
  metadata : Option TaskMeta := none
  tags : List String := []
  dueAt : Option Nat := none
  startsAt : Option Nat := none
  changeSetIds : List Nat := []
deriving Repr, DecidableEq

/-- One element of an INVENTORY_DIFF payload's `items` array. -/
structure InvItem where
  resourceId : Option Nat := none
  locationId : Option Nat := none
  quantity : Option Int := none
  action : Option String := none
  expiresAt : Option Nat := none
  inventoryItemId : Option Nat := none
deriving Repr, DecidableEq

/-- One element of a WEEKLY_MEAL_PLAN payload's `tasks` array. -/
structure TaskSpec where
  goalId : Option Nat := none
  solutionId : Option Nat := none
  stepId : Option Nat := none
  type : Option String := none
  status : Option String := none
  dueAt : Option Nat := none
  startsAt : Option Nat := none
deriving Repr, DecidableEq

/-- The free-form JSON payload of a ChangeSet, restricted to the two keys
the appliers read (`payload?.items ?? []` and `payload?.tasks ?? []`). -/
structure Payload where
  items : Option (List InvItem) := none
  tasks : Option (List TaskSpec) := none
deriving Repr, DecidableEq

/-- ChangeSet row. -/
structure ChangeSet where
  id : Nat
  entityId : Nat
  taskId : Option Nat := none
  trackId : Option Nat := none
  subjectType : String
  subjectId : Nat
  type : String
  payload : Payload
  status : String
  approvedAt : Option Nat := none
  appliedAt : Option Nat := none
deriving Repr, DecidableEq

/-- Question row. -/
structure Question where
  id : Nat
  entityId : Nat
  changeSetId : Option Nat := none
  subjectType : String
  subjectId : Nat
  questionType : String
  prompt : String
  batchId : Option Nat := none
deriving Repr, DecidableEq

/-- LensRun row. -/
structure LensRun where
  id : Nat
  trackId : Nat
  lensId : Nat
  analystType : String
  status : String
  rawOutput : Option Payload := none
deriving Repr, DecidableEq

/-- Lens row (global, not entity-scoped). -/
structure Lens where
  id : Nat
  type : String
  name : String
deriving Repr, DecidableEq

/-- Track row. -/
structure Track where
  id : Nat
  entityId : Nat
  actorId : Nat
  sensorId : Nat
  locationId : Option Nat := none
  mediaUrl : String
  telemetry : Option String := none
deriving Repr, DecidableEq

/-- Sensor row. -/
structure Sensor where
  id : Nat
  entityId : Nat
  name : String
  type : String
deriving Repr, DecidableEq

/-- Resource row. -/
structure Resource where
  id : Nat
  entityId : Nat
  name : String
  unit : Option String := none
deriving Repr, DecidableEq

/-- Location row. -/
structure Location where
  id : Nat
  entityId : Nat
  name : String
  parentId : Option Nat := none
deriving Repr, DecidableEq

/-- AuditLog row (append-only). -/
structure AuditEntry where
  entityId : Nat
  actorId : Option Nat := none
  subjectType : String
  subjectId : Nat
  action : String
deriving Repr, DecidableEq

/-- The relational store, one list per table. `nextId` hands out fresh row ids. -/
structure Store where
  memberships : List Membership := []
  inventory : List InventoryItem := []
  tasks : List Task := []
  changeSets : List ChangeSet := []
  questions : List Question := []
  lensRuns : List LensRun := []
  lenses : List Lens := []
  tracks : List Track := []
  sensors : List Sensor := []
  resources : List Resource := []
  locations : List Location := []
  audits : List AuditEntry := []
  nextId : Nat := 0
deriving Repr, DecidableEq

/-- Store plus the write-fault budget used to model a throwing Prisma call:
`none` = writes always succeed, `some n` = the n-th write from now throws. -/
structure Db where
  store : Store
  writesLeft : Option Nat := none
deriving Repr, DecidableEq

/-- One Prisma write. On a throw the store is returned unchanged at
the point of failure (no rollback of anything already written). -/
def dbWrite (db : Db) (f : Store → Store) : Except Db Db :=
  match db.writesLeft with
  | none => .ok { db with store := f db.store }
  | some 0 => .error db
  | some (n + 1) => .ok { store := f db.store, writesLeft := some n }

/-- `prisma.auditLog.create` wrapped in try/catch: best-effort, a failure
is logged and swallowed, never propagated. -/
def logAudit (db : Db) (e : AuditEntry) : Db :=
  match dbWrite db (fun s => { s with audits := s.audits ++ [e] }) with
  | .ok db' => db'
  | .error db' => db'

/-- `assertMembership`: findFirst on EntityActor by entity, actor and
(optionally) a role allow-list. -/
def assertMembership (s : Store) (entityId : Nat) (actorId : Option Nat)
    (roles : Option (List String)) : Bool :=
  match actorId with
  | none => false
  | some a =>
      s.memberships.any (fun m =>
        m.entityId == entityId && m.actorId == a &&
          (match roles with
           | some rs => rs.contains m.role
           | none => true))

/-- Replace the first element satisfying `p` (Prisma `update` by a unique
key touches exactly the matched row; positions of all rows are kept). -/
def replaceFirst {α : Type} (l : List α) (p : α → Bool) (f : α → α) : List α :=
  match l with
  | [] => []
  | x :: xs => if p x then f x :: xs else x :: replaceFirst xs p f

/-- Create a Task row with a fresh id. -/
def createTaskW (db : Db) (mk : Nat → Task) : Except Db (Task × Db) :=
  match dbWrite db (fun s =>
    { s with tasks := s.tasks ++ [mk db.store.nextId], nextId := s.nextId + 1 }) with
  | .ok db' => .ok (mk db.store.nextId, db')
  | .error db' => .error db'

/-- Create a ChangeSet row with a fresh id. -/
def createChangeSetW (db : Db) (mk : Nat → ChangeSet) : Except Db (ChangeSet × Db) :=
  match dbWrite db (fun s =>
    { s with changeSets := s.changeSets ++ [mk db.store.nextId], nextId := s.nextId + 1 }) with
  | .ok db' => .ok (mk db.store.nextId, db')
  | .error db' => .error db'

/-- Create a Question row with a fresh id. -/
def createQuestionW (db : Db) (mk : Nat → Question) : Except Db (Question × Db) :=
  match dbWrite db (fun s =>
    { s with questions := s.questions ++ [mk db.store.nextId], nextId := s.nextId + 1 }) with
  | .ok db' => .ok (mk db.store.nextId, db')
  | .error db' => .error db'

/-- The composite unique key `resourceId_entityId_locationId` on InventoryItem. -/
def invKey (entityId rid lid : Nat) (it : InventoryItem) : Bool :=
  it.resourceId == some rid && it.entityId == entityId && it.locationId == some lid

/-- The delete condition of `applyInventoryDiff`:
`item.action === "DELETE" || (typeof item.quantity === "number" && item.quantity <= 0)`. -/
def isDeleteItem (item : InvItem) : Bool :=
  item.action == some "DELETE" ||
    (match item.quantity with
     | some q => decide (q ≤ 0)
     | none => false)

/-- One entry of the `results` array returned by `applyInventoryDiff`. -/
inductive InvApplyRes where
  | toBuy (taskId : Nat)
  | deleted (resourceId locationId : Nat)
  | upserted (item : InventoryItem)
deriving Repr, DecidableEq

/-- The title given to a to-buy task: the resource's name when it resolves. -/
def buyTitle (s : Store) (rid : Nat) : String :=
  match s.resources.find? (fun r => r.id == rid) with
  | some r => "Buy " ++ r.name
  | none => "Buy resource"

/-- The upsert `update` clause of `applyInventoryDiff`: quantity is replaced
by the item's quantity (left untouched when absent, as Prisma does for an
`undefined` field) and expiry is replaced only when given. -/
def upsertPatch (item : InvItem) (it : InventoryItem) : InventoryItem :=
  { it with
    quantity := item.quantity.getD it.quantity,
    expiresAt := match item.expiresAt with
                 | some e => some e
                 | none => it.expiresAt }

/-- The upsert `create` clause of `applyInventoryDiff` (quantity defaults to 0). -/
def upsertRow (entityId rid lid : Nat) (item : InvItem) (nid : Nat) : InventoryItem :=
  { id := nid, entityId := entityId, resourceId := some rid, locationId := some lid,
    quantity := item.quantity.getD 0, expiresAt := item.expiresAt }

/-- The Task row created for a TO_BUY item: BUY_RESOURCE, PENDING, tagged
to-buy, with metadata carrying the item's ids and quantity (default 1). -/
def toBuyTask (entityId : Nat) (item : InvItem) (rid lid : Nat) (s : Store)
    (tid : Nat) : Task :=
  { id := tid, entityId := entityId, type := "BUY_RESOURCE", status := "PENDING",
    locationId := some lid, title := some (buyTitle s rid),
    metadata := some { inventoryItemId := item.inventoryItemId,
                       resourceId := some rid, locationId := some lid,
                       quantity := some (item.quantity.getD 1) },
    tags := ["to-buy"] }

/-- The body of the per-item loop of `applyInventoryDiff`
(server.ts lines 1089-1144). Returns `none` when the item is skipped. -/
def applyInvStep (entityId : Nat) (item : InvItem) (db : Db) :
    Except Db (Option InvApplyRes × Db) :=
  match item.resourceId, item.locationId with
  | some rid, some lid =>
    if item.action == some "TO_BUY" then
      match createTaskW db (toBuyTask entityId item rid lid db.store) with
      | .error db' => .error db'
      | .ok (t, db') => .ok (some (.toBuy t.id), db')
    else if isDeleteItem item then
      match dbWrite db (fun s =>
        { s with inventory := s.inventory.filter (fun it => !invKey entityId rid lid it) }) with
      | .error db' => .error db'
      | .ok db' => .ok (some (.deleted rid lid), db')
    else
      match db.store.inventory.find? (invKey entityId rid lid) with
      | some old =>
        match dbWrite db (fun s =>
          { s with inventory :=
              replaceFirst s.inventory (invKey entityId rid lid) (upsertPatch item) }) with
        | .error db' => .error db'
        | .ok db' => .ok (some (.upserted (upsertPatch item old)), db')
      | none =>
        match dbWrite db (fun s =>
          { s with inventory := s.inventory ++ [upsertRow entityId rid lid item db.store.nextId],
                   nextId := s.nextId + 1 }) with
        | .error db' => .error db'
        | .ok db' => .ok (some (.upserted (upsertRow entityId rid lid item db.store.nextId)), db')
  | _, _ => .ok (none, db)

/-- The loop of `applyInventoryDiff` over `payload?.items ?? []`. -/
def applyInvItems (entityId : Nat) (items : List InvItem) (db : Db) :
    Except Db (List InvApplyRes × Db) :=
  match items with
  | [] => .ok ([], db)
  | item :: rest =>
    match applyInvStep entityId item db with
    | .error db' => .error db'
    | .ok (r, db') =>
      match applyInvItems entityId rest db' with
      | .error db2 => .error db2
      | .ok (rs, db2) => .ok (r.toList ++ rs, db2)

/-- `applyInventoryDiff(entityId, payload)`. -/
def applyInventoryDiff (entityId : Nat) (payload : Payload) (db : Db) :
    Except Db (List InvApplyRes × Db) :=
  applyInvItems entityId (payload.items.getD []) db

/-- The Task row materialized from one weekly-plan task spec. -/
def planTask (entityId : Nat) (sp : TaskSpec) (tid : Nat) : Task :=
  { id := tid, entityId := entityId, goalId := sp.goalId, solutionId := sp.solutionId,
    stepId := sp.stepId, type := sp.type.getD "BUY_RESOURCE",
    status := sp.status.getD "PENDING", dueAt := sp.dueAt, startsAt := sp.startsAt }

/-- The loop of `applyWeeklyPlan` over `payload?.tasks ?? []`: each spec is
materialized as a new Task row (defaults: type BUY_RESOURCE, status PENDING). -/
def applyPlanTasks (entityId : Nat) (specs : List TaskSpec) (db : Db) :
    Except Db (List Task × Db) :=
  match specs with
  | [] => .ok ([], db)
  | t :: rest =>
    match createTaskW db (planTask entityId t) with
    | .error db' => .error db'
    | .ok (created, db') =>
      match applyPlanTasks entityId rest db' with
      | .error db2 => .error db2
      | .ok (rest', db2) => .ok (created :: rest', db2)

/-- `applyWeeklyPlan(entityId, payload)`. -/
def applyWeeklyPlan (entityId : Nat) (payload : Payload) (db : Db) :
    Except Db (List Task × Db) :=
  applyPlanTasks entityId (payload.tasks.getD []) db

/-- The `update` clause of the apply endpoint's status transition. -/
def appliedPatch (now : Nat) (c : ChangeSet) : ChangeSet :=
  { c with status := "APPLIED", appliedAt := some now }

/-- The companion bookkeeping task created by the apply endpoint:
Task(type=APPLY_CHANGESET, status=DONE) connected to the ChangeSet. -/
def bookTask (entityId csId tid : Nat) : Task :=
  { id := tid, entityId := entityId, type := "APPLY_CHANGESET", status := "DONE",
    changeSetIds := [csId] }

/-- The `update` clause of the approve endpoint's status transition. -/
def approvedPatch (now : Nat) (c : ChangeSet) : ChangeSet :=
  { c with status := "APPROVED", approvedAt := some now }

/-- The type dispatch inside `POST /changesets/:id/apply`: INVENTORY_DIFF and
WEEKLY_MEAL_PLAN have appliers, any other type is a no-op acknowledgment. -/
def runApplier (cs : ChangeSet) (db : Db) : Except Db Db :=
  if cs.type == "INVENTORY_DIFF" then
    match applyInventoryDiff cs.entityId cs.payload db with
    | .ok (_, db') => .ok db'
    | .error db' => .error db'
  else if cs.type == "WEEKLY_MEAL_PLAN" then
    match applyWeeklyPlan cs.entityId cs.payload db with
    | .ok (_, db') => .ok db'
    | .error db' => .error db'
  else .ok db

/-- `POST /changesets/:changeSetId/apply` (server.ts lines 1169-1215).
Returns the HTTP status code and the resulting database. -/
def applyChangeSet (db : Db) (changeSetId : Nat) (actorId : Option Nat) (now : Nat) :
    Nat × Db :=
  match actorId with
  | none => (401, db)
  | some _ =>
    match db.store.changeSets.find? (fun cs => cs.id == changeSetId) with
    | none => (404, db)
    | some cs =>
      if assertMembership db.store cs.entityId actorId (some ["ADMIN"]) = false then (403, db)
      else if cs.status != "APPROVED" then (409, db)
      else
        match runApplier cs db with
        | .error db1 => (500, db1)
        | .ok db1 =>
          match createTaskW db1 (bookTask cs.entityId cs.id) with
          | .error db2 => (500, db2)
          | .ok (_, db2) =>
            match dbWrite db2 (fun s =>
              { s with changeSets :=
                  replaceFirst s.changeSets (fun c => c.id == cs.id) (appliedPatch now) }) with
            | .error db3 => (500, db3)
            | .ok db3 =>
              let db4 := logAudit db3
                { entityId := cs.entityId, actorId := actorId, subjectType := "CHANGESET",
                  subjectId := cs.id, action := "APPLY_CHANGESET" }
              (200, db4)

/-- `POST /changesets/:changeSetId/approve` (server.ts lines 1217-1241). -/
def approveChangeSet (db : Db) (changeSetId : Nat) (actorId : Option Nat) (now : Nat) :
    Nat × Db :=
  match actorId with
  | none => (401, db)
  | some _ =>
    match db.store.changeSets.find? (fun cs => cs.id == changeSetId) with
    | none => (404, db)
    | some cs =>
      if assertMembership db.store cs.entityId actorId (some ["ADMIN"]) = false then (403, db)
      else if cs.status == "APPLIED" then (409, db)
      else
        match dbWrite db (fun s =>
          { s with changeSets :=
              replaceFirst s.changeSets (fun c => c.id == cs.id) (approvedPatch now) }) with
        | .error db1 => (500, db1)
        | .ok db1 =>
          let db2 := logAudit db1
            { entityId := cs.entityId, actorId := actorId, subjectType := "CHANGESET",
              subjectId := cs.id, action := "APPROVE_CHANGESET" }
          (200, db2)

/-- The zod enum accepted by `POST /tasks/:taskId/status`. -/
def validTaskStatus (st : String) : Bool :=
  st == "PENDING" || st == "IN_PROGRESS" || st == "DONE" || st == "BLOCKED"

/-- The `update` clause of the task status write. -/
def statusPatch (st : String) (t : Task) : Task :=
  { t with status := st }

/-- The `update` clause of the BUY_RESOURCE completion upsert: increment quantity. -/
def incPatch (qty : Int) (it : InventoryItem) : InventoryItem :=
  { it with quantity := it.quantity + qty }

/-- The `create` clause of the BUY_RESOURCE completion upsert: a new row at
`metadata.inventoryItemId` built from the task's metadata (quantity default 1). -/
def buyRow (existing : Task) (meta : TaskMeta) (invId : Nat) : InventoryItem :=
  { id := invId, entityId := existing.entityId, resourceId := meta.resourceId,
    locationId := meta.locationId, quantity := meta.quantity.getD 1 }

/-- The BUY_RESOURCE completion side effect of `POST /tasks/:taskId/status`:
upsert the InventoryItem at `metadata.inventoryItemId`, incrementing its
quantity by `metadata.quantity` (default 1), or creating the row from
`metadata.resourceId/locationId`. No-op when the metadata carries no
truthy `inventoryItemId`. -/
def incrementInventoryForTask (existing : Task) (db : Db) : Except Db Db :=
  match existing.metadata with
  | none => .ok db
  | some meta =>
    match meta.inventoryItemId with
    | none => .ok db
    | some invId =>
      dbWrite db (fun s =>
        if s.inventory.any (fun it => it.id == invId) then
          { s with inventory := replaceFirst s.inventory (fun it => it.id == invId) (incPatch (meta.quantity.getD 1)) }
        else
          { s with inventory := s.inventory ++ [buyRow existing meta invId] })

/-- `POST /tasks/:taskId/status` (server.ts lines 768-823). -/
def setTaskStatus (db : Db) (taskId : Nat) (newStatus : String) (actorId : Option Nat) :
    Nat × Db :=
  match actorId with
  | none => (401, db)
  | some _ =>
    if validTaskStatus newStatus = false then (400, db)
    else
      match db.store.tasks.find? (fun t => t.id == taskId) with
      | none => (404, db)
      | some existing =>
        match dbWrite db (fun s =>
          { s with tasks := replaceFirst s.tasks (fun t => t.id == taskId) (statusPatch newStatus) }) with
        | .error db1 => (500, db1)
        | .ok db1 =>
          match (if existing.type == "BUY_RESOURCE" && existing.status != "DONE" &&
                    newStatus == "DONE" then
                   incrementInventoryForTask existing db1
                 else .ok db1) with
          | .error db2 => (500, db2)
          | .ok db2 =>
            let db3 := logAudit db2
              { entityId := existing.entityId, actorId := actorId, subjectType := "TASK",
                subjectId := existing.id, action := "UPDATE_TASK_STATUS" }
            (200, db3)

/-- `buildInventoryDiffPayload`: stub diff from the entity's first
Resource/Location pair (empty `items` when either is missing). -/
def buildInventoryDiffPayload (s : Store) (entityId : Nat) : Payload :=
  let r? := (s.resources.filter (fun r => r.entityId == entityId)).head?
  let l? := (s.locations.filter (fun l => l.entityId == entityId)).head?
  let items : List InvItem :=
    match r?, l? with
    | some r, some l => [{ resourceId := some r.id, locationId := some l.id, quantity := some 1 }]
    | _, _ => []
  { items := some items }

/-- `buildWeeklyPlanPayload`: fixed two-task stub (BUY_RESOURCE + COOK_RECIPE_STEP). -/
def buildWeeklyPlanPayload (goalId : Option Nat) (now : Nat) : Payload :=
  { tasks := some
      [{ goalId := goalId, type := some "BUY_RESOURCE", status := some "PENDING",
         dueAt := some now },
       { goalId := goalId, type := some "COOK_RECIPE_STEP", status := some "PENDING",
         dueAt := some now }] }

/-- The `update` clause marking a LensRun COMPLETED with its raw output. -/
def completedPatch (pl : Payload) (lr : LensRun) : LensRun :=
  { lr with status := "COMPLETED", rawOutput := some pl }

/-- The ChangeSet row created by `processLensRun`: PENDING, subject TRACK. -/
def lensChangeSet (entityId : Nat) (lensRun : LensRun) (ty : String) (pl : Payload)
    (cid : Nat) : ChangeSet :=
  { id := cid, entityId := entityId, taskId := none, trackId := some lensRun.trackId,
    subjectType := "TRACK", subjectId := lensRun.trackId, type := ty,
    payload := pl, status := "PENDING" }

/-- The Question row created by `processLensRun`: a BOOLEAN prompt batched
under the new ChangeSet's id, with a canned prompt per ChangeSet type. -/
def lensQuestion (entityId csId : Nat) (ty : String) (qid : Nat) : Question :=
  { id := qid, entityId := entityId, changeSetId := some csId,
    subjectType := "CHANGESET", subjectId := csId, questionType := "BOOLEAN",
    prompt := if ty == "INVENTORY_DIFF" then "Apply inventory updates?"
              else "Approve weekly meal plan?",
    batchId := some csId }

/-- The rest of `processLensRun` once the payload `pl` and ChangeSet type `ty`
have been synthesized: create one ChangeSet (PENDING) and one Question batched
under the new ChangeSet's id, mark the LensRun COMPLETED with `rawOutput = pl`,
and write one audit entry. -/
def processLensRunCore (db : Db) (lensRun : LensRun) (entityId : Nat)
    (pl : Payload) (ty : String) (actorId : Option Nat) :
    Except Db ((LensRun × ChangeSet × Question) × Db) :=
  match createChangeSetW db (lensChangeSet entityId lensRun ty pl) with
  | .error db1 => .error db1
  | .ok (cs, db1) =>
    match createQuestionW db1 (lensQuestion entityId cs.id ty) with
    | .error db2 => .error db2
    | .ok (q, db2) =>
      match dbWrite db2 (fun s =>
        { s with lensRuns :=
            replaceFirst s.lensRuns (fun lr => lr.id == lensRun.id) (completedPatch pl) }) with
      | .error db3 => .error db3
      | .ok db3 =>
        .ok ((completedPatch pl lensRun, cs, q),
          logAudit db3
            { entityId := entityId, actorId := actorId, subjectType := "CHANGESET",
              subjectId := cs.id, action := "CREATE_CHANGESET_FROM_LENS_RUN" })

/-- `processLensRun(lensRunId, actorId)` (server.ts lines 918-979): synthesizes
a payload from the lens type, creates one ChangeSet (PENDING) and one Question
batched under the new ChangeSet's id, marks the LensRun COMPLETED with
`rawOutput` set to the payload, and writes one audit entry. A missing
LensRun (or a dangling track/lens reference) throws. -/
def processLensRun (db : Db) (lensRunId : Nat) (actorId : Option Nat) (now : Nat) :
    Except Db ((LensRun × ChangeSet × Question) × Db) :=
  match db.store.lensRuns.find? (fun lr => lr.id == lensRunId) with
  | none => .error db
  | some lensRun =>
    match db.store.tracks.find? (fun t => t.id == lensRun.trackId),
          db.store.lenses.find? (fun l => l.id == lensRun.lensId) with
    | some track, some lens =>
      if lens.type == "MEAL_PLAN_LENS" then
        processLensRunCore db lensRun track.entityId
          (buildWeeklyPlanPayload none now) "WEEKLY_MEAL_PLAN" actorId
      else
        processLensRunCore db lensRun track.entityId
          (buildInventoryDiffPayload db.store track.entityId) "INVENTORY_DIFF" actorId
    | _, _ => .error db

/-- One step of `ensureDefaultSensors`: create the sensor of type `ty` for
the entity when absent (idempotent upsert-by-natural-key). -/
def ensureSensor (entityId : Nat) (nm ty : String) (db : Db) : Except Db Db :=
  if db.store.sensors.any (fun sn => sn.entityId == entityId && sn.type == ty) then .ok db
  else
    dbWrite db (fun s =>
      { s with
        sensors := s.sensors ++ [{ id := s.nextId, entityId := entityId, name := nm, type := ty }],
        nextId := s.nextId + 1 })

/-- `ensureDefaultSensors(entityId)`: provision MOBILE_CAMERA and WEB_UPLOAD. -/
def ensureDefaultSensors (entityId : Nat) (db : Db) : Except Db Db :=
  match ensureSensor entityId "Mobile camera" "MOBILE_CAMERA" db with
  | .error db' => .error db'
  | .ok db1 => ensureSensor entityId "Web upload" "WEB_UPLOAD" db1

/-- One step of `ensureDefaultLenses`: create the global lens of type `ty` when absent. -/
def ensureLens (ty nm : String) (db : Db) : Except Db Db :=
  if db.store.lenses.any (fun l => l.type == ty) then .ok db
  else
    dbWrite db (fun s =>
      { s with lenses := s.lenses ++ [{ id := s.nextId, type := ty, name := nm }],
               nextId := s.nextId + 1 })

/-- `ensureDefaultLenses()`: provision INVENTORY_LENS and MEAL_PLAN_LENS. -/
def ensureDefaultLenses (db : Db) : Except Db Db :=
  match ensureLens "INVENTORY_LENS" "Inventory Lens" db with
  | .error db' => .error db'
  | .ok db1 => ensureLens "MEAL_PLAN_LENS" "Weekly Meal Plan Lens" db1

/-- The validated request body of `POST /entities/:entityId/tracks`. -/
structure TrackReq where
  actorId : Nat
  mediaUrl : String
  telemetry : Option String := none
  locationId : Option Nat := none
  sensorType : String := "MOBILE_CAMERA"
  lensType : String := "INVENTORY_LENS"
deriving Repr, DecidableEq

/-- `POST /entities/:entityId/tracks` (server.ts lines 634-687): membership
check, default provisioning, sensor lookup (400 when the requested sensor
type is missing), Track creation, and a PENDING LensRun when a lens of the
requested type is registered. Returns the HTTP status code and database. -/
def createTrack (db : Db) (entityId : Nat) (callerActorId : Option Nat) (req : TrackReq) :
    Nat × Db :=
  match callerActorId with
  | none => (401, db)
  | some _ =>
    if assertMembership db.store entityId callerActorId none = false then (403, db)
    else
      match ensureDefaultSensors entityId db with
      | .error db1 => (500, db1)
      | .ok db1 =>
        match ensureDefaultLenses db1 with
        | .error db2 => (500, db2)
        | .ok db2 =>
          match db2.store.sensors.find?
              (fun sn => sn.entityId == entityId && sn.type == req.sensorType) with
          | none => (400, db2)
          | some sensor =>
            let track : Track :=
              { id := db2.store.nextId, entityId := entityId, actorId := req.actorId,
                sensorId := sensor.id, locationId := req.locationId,
                mediaUrl := req.mediaUrl, telemetry := req.telemetry }
            match dbWrite db2 (fun s =>
              { s with tracks := s.tracks ++ [track], nextId := s.nextId + 1 }) with
            | .error db3 => (500, db3)
            | .ok db3 =>
              match db3.store.lenses.find? (fun l => l.type == req.lensType) with
              | none => (200, db3)
              | some lens =>
                let run : LensRun :=
                  { id := db3.store.nextId, trackId := track.id, lensId := lens.id,
                    analystType := "AI", status := "PENDING" }
                match dbWrite db3 (fun s =>
                  { s with lensRuns := s.lensRuns ++ [run], nextId := s.nextId + 1 }) with
                | .error db4 => (500, db4)
                | .ok db4 => (200, db4)

/-! ### Notions used by the theorems -/

/-- Final database of a fallible computation (the store at the point of a
throw is kept: no rollback). -/
def postDb {α : Type} : Except Db (α × Db) → Db
  | .ok (_, d) => d
  | .error d => d

/-- Final database of a fallible computation returning only a database. -/
def postDbE : Except Db Db → Db
  | .ok d => d
  | .error d => d

/-- The store fields not touched by the appliers or by task creation:
everything except `inventory`, `tasks` and the id counter. -/
def FrameCS (s s' : Store) : Prop :=
  s'.memberships = s.memberships ∧ s'.changeSets = s.changeSets ∧
  s'.questions = s.questions ∧ s'.lensRuns = s.lensRuns ∧ s'.lenses = s.lenses ∧
  s'.tracks = s.tracks ∧ s'.sensors = s.sensors ∧ s'.resources = s.resources ∧
  s'.locations = s.locations ∧ s'.audits = s.audits

/-- A materialized weekly-plan task matches its spec: the given links and
dates, with type defaulting to BUY_RESOURCE and status to PENDING. -/
def specMatches (entityId : Nat) (sp : TaskSpec) (t : Task) : Prop :=
  t.entityId = entityId ∧ t.type = sp.type.getD "BUY_RESOURCE" ∧
  t.status = sp.status.getD "PENDING" ∧ t.goalId = sp.goalId ∧
  t.solutionId = sp.solutionId ∧ t.stepId = sp.stepId ∧
  t.dueAt = sp.dueAt ∧ t.startsAt = sp.startsAt

/-- The InventoryItem key-uniqueness invariant backed by the
`resourceId_entityId_locationId` unique index: at most one row per
(resource, entity, location) triple. -/
def invAtMostOne (s : Store) : Prop :=
  ∀ e rid lid : Nat, s.inventory.countP (invKey e rid lid) ≤ 1

/-- Concrete ChangeSet: APPROVED INVENTORY_DIFF over one (resource 1, location 2) item. -/
def wCs3 : ChangeSet :=
  { id := 3, entityId := 0, subjectType := "ENTITY", subjectId := 0,
    type := "INVENTORY_DIFF",
    payload := { items := some [{ resourceId := some 1, locationId := some 2,
                                  quantity := some 5 }] },
    status := "APPROVED" }

/-- Concrete ChangeSet: already APPLIED. -/
def wCs4 : ChangeSet :=
  { id := 4, entityId := 0, subjectType := "ENTITY", subjectId := 0,
    type := "INVENTORY_DIFF", payload := {}, status := "APPLIED" }

/-- Concrete ChangeSet: still PENDING. -/
def wCs5 : ChangeSet :=
  { id := 5, entityId := 0, subjectType := "ENTITY", subjectId := 0,
    type := "INVENTORY_DIFF", payload := {}, status := "PENDING" }

/-- Concrete ChangeSet: APPROVED WEEKLY_MEAL_PLAN with two task specs. -/
def wCs6 : ChangeSet :=
  { id := 6, entityId := 0, subjectType := "ENTITY", subjectId := 0,
    type := "WEEKLY_MEAL_PLAN",
    payload := { tasks := some [{ type := some "BUY_RESOURCE" },
                                { type := some "COOK_RECIPE_STEP",
                                  status := some "IN_PROGRESS" }] },
    status := "APPROVED" }

/-- Concrete PENDING LensRun over track 5 and lens 6. -/
def wLr8 : LensRun :=
  { id := 8, trackId := 5, lensId := 6, analystType := "AI", status := "PENDING" }

/-- Concrete Track for entity 0. -/
def wTrack5 : Track :=
  { id := 5, entityId := 0, actorId := 10, sensorId := 4, mediaUrl := "m" }

/-- Concrete global inventory Lens. -/
def wLens6 : Lens :=
  { id := 6, type := "INVENTORY_LENS", name := "Inventory Lens" }

/-- A small concrete database used to instantiate the universally quantified
theorems: entity 0 with an ADMIN (actor 10) and a MEMBER (actor 11), one
resource, one location, and ChangeSets in each status. -/
def wStore : Store :=
  { memberships := [{ entityId := 0, actorId := 10, role := "ADMIN" },
                    { entityId := 0, actorId := 11, role := "MEMBER" }],
    resources := [{ id := 1, entityId := 0, name := "Ground beef" }],
    locations := [{ id := 2, entityId := 0, name := "Pantry" }],
    tasks := [{ id := 7, entityId := 0, type := "BUY_RESOURCE", status := "PENDING",
                metadata := some { inventoryItemId := some 9, resourceId := some 1,
                                   locationId := some 2, quantity := some 3 } }],
    changeSets := [wCs3, wCs4, wCs5, wCs6],
    lensRuns := [wLr8],
    tracks := [wTrack5],
    lenses := [wLens6],
    nextId := 100 }

/-- The witness database over `wStore`, with writes that always succeed. -/
def wDb : Db := { store := wStore }

/-- An APPROVED INVENTORY_DIFF ChangeSet with two upsert items, used to
exercise a mid-applier write failure. -/
def fCs : ChangeSet :=
  { id := 3, entityId := 0, subjectType := "ENTITY", subjectId := 0,
    type := "INVENTORY_DIFF",
    payload := { items := some [{ resourceId := some 1, locationId := some 2,
                                  quantity := some 5 },
                                { resourceId := some 4, locationId := some 2,
                                  quantity := some 7 }] },
    status := "APPROVED" }

/-- Store for the fault scenario: one admin, one approved two-item diff. -/
def fStore : Store :=
  { memberships := [{ entityId := 0, actorId := 10, role := "ADMIN" }],
    changeSets := [fCs],
    nextId := 50 }

/-- Database whose second write from now on throws (fault budget 1). -/
def fDb : Db := { store := fStore, writesLeft := some 1 }

/-! ### Helper lemmas about lists and single-row updates -/

theorem find?_replaceFirst_self {α : Type} (l : List α) (p : α → Bool) (f : α → α) (x : α)
    (hfind : l.find? p = some x) (hp : p (f x) = true) :
    (replaceFirst l p f).find? p = some (f x) := by
  induction l with
  | nil => simp at hfind
  | cons a as ih =>
    by_cases ha : p a = true
    · rw [List.find?_cons_of_pos _ ha] at hfind
      injection hfind with hx
      subst hx
      simp [replaceFirst, ha, List.find?_cons_of_pos _ hp]
    · have ha' : p a = false := by simpa using ha
      rw [List.find?_cons_of_neg _ (by simp [ha'])] at hfind
      have hrw : replaceFirst (a :: as) p f = a :: replaceFirst as p f := by
        simp [replaceFirst, ha']
      rw [hrw, List.find?_cons_of_neg _ (by simp [ha'])]
      exact ih hfind

theorem mem_replaceFirst_of_ne {α : Type} (l : List α) (p : α → Bool) (f : α → α) (x y : α)
    (hx : x ∈ l) (hfind : l.find? p = some y) (hne : x ≠ y) :
    x ∈ replaceFirst l p f := by
  induction l with
  | nil => simp at hx
  | cons a as ih =>
    by_cases ha : p a = true
    · rw [List.find?_cons_of_pos _ ha] at hfind
      injection hfind with hy
      subst hy
      rcases List.mem_cons.mp hx with h | h
      · exact absurd h hne
      · simp [replaceFirst, ha, h]
    · have ha' : p a = false := by simpa using ha
      rw [List.find?_cons_of_neg _ (by simp [ha'])] at hfind
      rcases List.mem_cons.mp hx with h | h
      · simp [replaceFirst, ha', h]
      · simp [replaceFirst, ha']
        exact Or.inr (ih h hfind)

theorem countP_replaceFirst {α : Type} (l : List α) (p : α → Bool) (f : α → α)
    (q : α → Bool) (hq : ∀ x, q (f x) = q x) :
    (replaceFirst l p f).countP q = l.countP q := by
  induction l with
  | nil => rfl
  | cons a as ih =>
    by_cases ha : p a = true
    · simp [replaceFirst, ha, List.countP_cons, hq]
    · have ha' : p a = false := by simpa using ha
      simp [replaceFirst, ha', List.countP_cons, ih]

theorem countP_filter_le {α : Type} (l : List α) (r q : α → Bool) :
    (l.filter r).countP q ≤ l.countP q := by
  induction l with
  | nil => simp
  | cons a as ih =>
    by_cases hr : r a = true
    · simp only [List.filter_cons, hr, if_true, List.countP_cons]
      omega
    · have hr' : r a = false := by simpa using hr
      simp only [List.filter_cons, hr', Bool.false_eq_true, if_false, List.countP_cons]
      omega

theorem countP_eq_zero_of_find?_none {α : Type} (l : List α) (p : α → Bool)
    (h : l.find? p = none) : l.countP p = 0 := by
  rw [List.countP_eq_zero]
  intro a ha
  have := List.find?_eq_none.mp h a ha
  simpa using this

theorem find?_append_some {α : Type} (l l' : List α) (p : α → Bool) (x : α)
    (h : l.find? p = some x) : (l ++ l').find? p = some x := by
  rw [List.find?_append, h]
  rfl

theorem find?_append_none {α : Type} (l l' : List α) (p : α → Bool)
    (h : l.find? p = none) : (l ++ l').find? p = l'.find? p := by
  rw [List.find?_append, h]
  rfl

theorem countP_append_singleton {α : Type} (l : List α) (x : α) (q : α → Bool) :
    (l ++ [x]).countP q = l.countP q + (if q x then 1 else 0) := by
  by_cases hx : q x = true
  · simp [List.countP_append, List.countP_cons, hx]
  · have hx' : q x = false := by simpa using hx
    simp [List.countP_append, List.countP_cons, hx']

/-! ### Basic facts about `dbWrite` and `logAudit` -/

theorem dbWrite_none (db : Db) (f : Store → Store) (h : db.writesLeft = none) :
    dbWrite db f = .ok { store := f db.store, writesLeft := none } := by
  cases db with
  | mk s w =>
    simp at h
    subst h
    rfl

theorem dbWrite_error_store (db : Db) (f : Store → Store) (db' : Db)
    (h : dbWrite db f = .error db') : db' = db := by
  unfold dbWrite at h
  cases hw : db.writesLeft with
  | none => rw [hw] at h; cases h
  | some n =>
    cases n with
    | zero => rw [hw] at h; injection h with h'; exact h'.symm
    | succ m => rw [hw] at h; cases h

theorem logAudit_none (db : Db) (e : AuditEntry) (h : db.writesLeft = none) :
    logAudit db e =
      { store := { db.store with audits := db.store.audits ++ [e] }, writesLeft := none } := by
  unfold logAudit
  rw [dbWrite_none db _ h]

theorem FrameCS_refl (s : Store) : FrameCS s s := by
  simp [FrameCS]

theorem FrameCS_comp {s1 s2 s3 : Store} (h1 : FrameCS s1 s2) (h2 : FrameCS s2 s3) :
    FrameCS s1 s3 := by
  obtain ⟨a1, a2, a3, a4, a5, a6, a7, a8, a9, a10⟩ := h1
  obtain ⟨b1, b2, b3, b4, b5, b6, b7, b8, b9, b10⟩ := h2
  exact ⟨b1.trans a1, b2.trans a2, b3.trans a3, b4.trans a4, b5.trans a5,
         b6.trans a6, b7.trans a7, b8.trans a8, b9.trans a9, b10.trans a10⟩

theorem dbWrite_ok_store (db : Db) (f : Store → Store) (db' : Db)
    (h : dbWrite db f = .ok db') : db'.store = f db.store := by
  unfold dbWrite at h
  cases hw : db.writesLeft with
  | none => rw [hw] at h; injection h with h'; rw [← h']
  | some n =>
    cases n with
    | zero => rw [hw] at h; cases h
    | succ m => rw [hw] at h; injection h with h'; rw [← h']

theorem createTaskW_error (db : Db) (mk : Nat → Task) (db' : Db)
    (h : createTaskW db mk = .error db') : db' = db := by
  unfold createTaskW at h
  split at h
  next d heq => cases h
  next d heq =>
    injection h with h'
    rw [← h']
    exact dbWrite_error_store _ _ _ heq

theorem createTaskW_ok_store (db : Db) (mk : Nat → Task) (t : Task) (db' : Db)
    (h : createTaskW db mk = .ok (t, db')) :
    t = mk db.store.nextId ∧
      db'.store =
        { db.store with
            tasks := db.store.tasks ++ [mk db.store.nextId],
            nextId := db.store.nextId + 1 } := by
  unfold createTaskW at h
  split at h
  next d heq =>
    injection h with h'
    injection h' with h1 h2
    subst h2
    exact ⟨h1.symm, dbWrite_ok_store _ _ _ heq⟩
  next d heq => cases h

theorem createTaskW_none (db : Db) (mk : Nat → Task) (h : db.writesLeft = none) :
    createTaskW db mk = .ok (mk db.store.nextId,
      { store :=
          { db.store with
              tasks := db.store.tasks ++ [mk db.store.nextId],
              nextId := db.store.nextId + 1 },
        writesLeft := none }) := by
  unfold createTaskW
  rw [dbWrite_none db _ h]

theorem createChangeSetW_none (db : Db) (mk : Nat → ChangeSet) (h : db.writesLeft = none) :
    createChangeSetW db mk = .ok (mk db.store.nextId,
      { store :=
          { db.store with
              changeSets := db.store.changeSets ++ [mk db.store.nextId],
              nextId := db.store.nextId + 1 },
        writesLeft := none }) := by
  unfold createChangeSetW
  rw [dbWrite_none db _ h]

theorem createQuestionW_none (db : Db) (mk : Nat → Question) (h : db.writesLeft = none) :
    createQuestionW db mk = .ok (mk db.store.nextId,
      { store :=
          { db.store with
              questions := db.store.questions ++ [mk db.store.nextId],
              nextId := db.store.nextId + 1 },
        writesLeft := none }) := by
  unfold createQuestionW
  rw [dbWrite_none db _ h]

/-! ### Frame lemmas: what the appliers leave untouched, with any fault budget -/

theorem applyInvStep_frame (e : Nat) (item : InvItem) (db : Db) :
    FrameCS db.store (postDb (applyInvStep e item db)).store := by
  unfold applyInvStep
  split
  · split
    · -- TO_BUY: task creation only
      split
      next d heq =>
        rw [createTaskW_error _ _ _ heq]
        exact FrameCS_refl _
      next t d heq =>
        obtain ⟨-, hst⟩ := createTaskW_ok_store _ _ _ _ heq
        simp only [postDb, hst]
        simp [FrameCS]
    · split
      · -- DELETE: inventory only
        split
        next d heq =>
          rw [dbWrite_error_store _ _ _ heq]
          exact FrameCS_refl _
        next d heq =>
          have hst := dbWrite_ok_store _ _ _ heq
          simp only [postDb, hst]
          simp [FrameCS]
      · -- upsert: inventory (and for a create, the id counter) only
        split
        next old hfound =>
          split
          next d heq =>
            rw [dbWrite_error_store _ _ _ heq]
            exact FrameCS_refl _
          next d heq =>
            have hst := dbWrite_ok_store _ _ _ heq
            simp only [postDb, hst]
            simp [FrameCS]
        next hfound =>
          split
          next d heq =>
            rw [dbWrite_error_store _ _ _ heq]
            exact FrameCS_refl _
          next d heq =>
            have hst := dbWrite_ok_store _ _ _ heq
            simp only [postDb, hst]
            simp [FrameCS]
  · exact FrameCS_refl _

theorem applyInvItems_frame (e : Nat) (items : List InvItem) (db : Db) :
    FrameCS db.store (postDb (applyInvItems e items db)).store := by
  induction items generalizing db with
  | nil => exact FrameCS_refl _
  | cons item rest ih =>
    unfold applyInvItems
    cases hstep : applyInvStep e item db with
    | error d =>
      have h1 := applyInvStep_frame e item db
      rw [hstep] at h1
      exact h1
    | ok pr =>
      obtain ⟨r, d⟩ := pr
      have h1 := applyInvStep_frame e item db
      rw [hstep] at h1
      simp only [postDb] at h1
      have h2 := ih d
      cases hrest : applyInvItems e rest d with
      | error d2 =>
        rw [hrest] at h2
        simp only [postDb] at h2
        simp only [hstep, hrest, postDb]
        exact FrameCS_comp h1 h2
      | ok pr2 =>
        obtain ⟨rs, d2⟩ := pr2
        rw [hrest] at h2
        simp only [postDb] at h2
        simp only [hstep, hrest, postDb]
        exact FrameCS_comp h1 h2

theorem applyPlanTasks_frame (e : Nat) (specs : List TaskSpec) (db : Db) :
    FrameCS db.store (postDb (applyPlanTasks e specs db)).store := by
  induction specs generalizing db with
  | nil => exact FrameCS_refl _
  | cons sp rest ih =>
    unfold applyPlanTasks
    cases hstep : createTaskW db (planTask e sp) with
    | error d =>
      simp only [hstep, postDb]
      rw [createTaskW_error _ _ _ hstep]
      exact FrameCS_refl _
    | ok pr =>
      obtain ⟨t, d⟩ := pr
      obtain ⟨-, hst⟩ := createTaskW_ok_store _ _ _ _ hstep
      have h1 : FrameCS db.store d.store := by
        simp only [hst]
        simp [FrameCS]
      have h2 := ih d
      cases hrest : applyPlanTasks e rest d with
      | error d2 =>
        rw [hrest] at h2
        simp only [postDb] at h2
        simp only [hstep, hrest, postDb]
        exact FrameCS_comp h1 h2
      | ok pr2 =>
        obtain ⟨rs, d2⟩ := pr2
        rw [hrest] at h2
        simp only [postDb] at h2
        simp only [hstep, hrest, postDb]
        exact FrameCS_comp h1 h2

theorem runApplier_frame (cs : ChangeSet) (db : Db) :
    FrameCS db.store (postDbE (runApplier cs db)).store := by
  unfold runApplier applyInventoryDiff applyWeeklyPlan
  split
  · cases h : applyInvItems cs.entityId (cs.payload.items.getD []) db with
    | ok pr =>
      obtain ⟨r, d⟩ := pr
      have := applyInvItems_frame cs.entityId (cs.payload.items.getD []) db
      rw [h] at this
      exact this
    | error d =>
      have := applyInvItems_frame cs.entityId (cs.payload.items.getD []) db
      rw [h] at this
      exact this
  · split
    · cases h : applyPlanTasks cs.entityId (cs.payload.tasks.getD []) db with
      | ok pr =>
        obtain ⟨r, d⟩ := pr
        have := applyPlanTasks_frame cs.entityId (cs.payload.tasks.getD []) db
        rw [h] at this
        exact this
      | error d =>
        have := applyPlanTasks_frame cs.entityId (cs.payload.tasks.getD []) db
        rw [h] at this
        exact this
    · exact FrameCS_refl _

/-! ### Success characterizations when writes cannot fail -/

theorem applyInvStep_none (e : Nat) (item : InvItem) (db : Db) (h : db.writesLeft = none) :
    ∃ r db', applyInvStep e item db = .ok (r, db') ∧ db'.writesLeft = none := by
  unfold applyInvStep
  split
  · split
    · rw [createTaskW_none db _ h]
      exact ⟨_, _, rfl, rfl⟩
    · split
      · rw [dbWrite_none db _ h]
        exact ⟨_, _, rfl, rfl⟩
      · split
        · rw [dbWrite_none db _ h]
          exact ⟨_, _, rfl, rfl⟩
        · rw [dbWrite_none db _ h]
          exact ⟨_, _, rfl, rfl⟩
  · exact ⟨none, db, rfl, h⟩

theorem applyInvItems_none (e : Nat) (items : List InvItem) (db : Db)
    (h : db.writesLeft = none) :
    ∃ r db', applyInvItems e items db = .ok (r, db') ∧ db'.writesLeft = none := by
  induction items generalizing db with
  | nil => exact ⟨[], db, rfl, h⟩
  | cons item rest ih =>
    obtain ⟨r, d, hstep, hd⟩ := applyInvStep_none e item db h
    obtain ⟨rs, d2, hrest, hd2⟩ := ih d hd
    refine ⟨r.toList ++ rs, d2, ?_, hd2⟩
    unfold applyInvItems
    simp only [hstep, hrest]

theorem applyPlanTasks_none (e : Nat) (specs : List TaskSpec) (db : Db)
    (h : db.writesLeft = none) :
    ∃ created db', applyPlanTasks e specs db = .ok (created, db') ∧
      db'.writesLeft = none ∧
      db'.store.tasks = db.store.tasks ++ created ∧
      db'.store.inventory = db.store.inventory ∧
      List.Forall₂ (specMatches e) specs created := by
  induction specs generalizing db with
  | nil => exact ⟨[], db, rfl, h, by simp, rfl, List.Forall₂.nil⟩
  | cons sp rest ih =>
    obtain ⟨created, d2, hrest, hw2, htasks, hinv, hmatch⟩ :=
      ih { store :=
             { db.store with
                 tasks := db.store.tasks ++ [planTask e sp db.store.nextId],
                 nextId := db.store.nextId + 1 },
           writesLeft := none } rfl
    refine ⟨planTask e sp db.store.nextId :: created, d2, ?_, hw2, ?_, ?_, ?_⟩
    · unfold applyPlanTasks
      rw [createTaskW_none db _ h]
      simp only [hrest]
    · rw [htasks]
      simp
    · rw [hinv]
    · exact List.Forall₂.cons (by simp [specMatches, planTask]) hmatch

theorem runApplier_none (cs : ChangeSet) (db : Db) (h : db.writesLeft = none) :
    ∃ db', runApplier cs db = .ok db' ∧ db'.writesLeft = none := by
  unfold runApplier applyInventoryDiff applyWeeklyPlan
  split
  · obtain ⟨r, d, hrun, hd⟩ := applyInvItems_none cs.entityId (cs.payload.items.getD []) db h
    rw [hrun]
    exact ⟨d, rfl, hd⟩
  · split
    · obtain ⟨r, d, hrun, hd, -, -, -⟩ :=
        applyPlanTasks_none cs.entityId (cs.payload.tasks.getD []) db h
      rw [hrun]
      exact ⟨d, rfl, hd⟩
    · exact ⟨db, rfl, h⟩

/-- `assertMembership` only reads the EntityActor table. -/
theorem assertMembership_congr (s s' : Store) (e : Nat) (a : Option Nat)
    (roles : Option (List String)) (h : s'.memberships = s.memberships) :
    assertMembership s' e a roles = assertMembership s e a roles := by
  unfold assertMembership
  rw [h]

/-- Full characterization of a successful apply on an APPROVED ChangeSet when
writes cannot fail: status 200; the applier ran (ending in store `dbA`); one
bookkeeping APPLY_CHANGESET task was added; the ChangeSet row was updated in
place to APPLIED with an `appliedAt` stamp; one APPLY_CHANGESET audit entry
was appended. -/
theorem applyChangeSet_ok_char (db : Db) (a : Nat) (now : Nat) (cs : ChangeSet)
    (hw : db.writesLeft = none)
    (hfind : db.store.changeSets.find? (fun c => c.id == cs.id) = some cs)
    (hadmin : assertMembership db.store cs.entityId (some a) (some ["ADMIN"]) = true)
    (hst : cs.status = "APPROVED") :
    ∃ dbA db2,
      runApplier cs db = .ok dbA ∧ dbA.writesLeft = none ∧
      FrameCS db.store dbA.store ∧
      applyChangeSet db cs.id (some a) now = (200, db2) ∧
      db2.writesLeft = none ∧
      db2.store.memberships = db.store.memberships ∧
      db2.store.changeSets =
        replaceFirst db.store.changeSets (fun c => c.id == cs.id) (appliedPatch now) ∧
      db2.store.tasks = dbA.store.tasks ++ [bookTask cs.entityId cs.id dbA.store.nextId] ∧
      db2.store.inventory = dbA.store.inventory ∧
      db2.store.audits = db.store.audits ++
        [{ entityId := cs.entityId, actorId := some a, subjectType := "CHANGESET",
           subjectId := cs.id, action := "APPLY_CHANGESET" }] := by
  obtain ⟨dbA, hrun, hwA⟩ := runApplier_none cs db hw
  have hframe := runApplier_frame cs db
  rw [hrun] at hframe
  simp only [postDbE] at hframe
  obtain ⟨hmem, hcs, hq, hlr, hl, htr, hsn, hrs, hlo, hau⟩ := hframe
  have happ : applyChangeSet db cs.id (some a) now =
      (200,
        { store :=
            { dbA.store with
                tasks := dbA.store.tasks ++ [bookTask cs.entityId cs.id dbA.store.nextId],
                nextId := dbA.store.nextId + 1,
                changeSets :=
                  replaceFirst dbA.store.changeSets (fun c => c.id == cs.id) (appliedPatch now),
                audits := dbA.store.audits ++
                  [{ entityId := cs.entityId, actorId := some a, subjectType := "CHANGESET",
                     subjectId := cs.id, action := "APPLY_CHANGESET" }] },
          writesLeft := none }) := by
    unfold applyChangeSet
    rw [hfind]
    simp only [hadmin, hst, hrun]
    rw [createTaskW_none dbA _ hwA]
    simp only [dbWrite_none, logAudit_none]
    simp
  refine ⟨dbA, _, hrun, hwA, ⟨hmem, hcs, hq, hlr, hl, htr, hsn, hrs, hlo, hau⟩,
    happ, rfl, ?_, ?_, ?_, ?_, ?_⟩
  · simpa using hmem
  · simp only [happ]
    rw [hcs]
  · simp
  · simp
  · simpa using hau

/-- `logAudit` only ever touches the audit table. -/
theorem logAudit_store (db : Db) (e : AuditEntry) :
    ∃ au, (logAudit db e).store = { db.store with audits := au } := by
  unfold logAudit
  cases h : dbWrite db (fun s => { s with audits := s.audits ++ [e] }) with
  | ok d => exact ⟨db.store.audits ++ [e], dbWrite_ok_store _ _ _ h⟩
  | error d =>
    rw [dbWrite_error_store _ _ _ h]
    exact ⟨db.store.audits, rfl⟩

/-! ### Claim theorems -/

/-- Claim C1: the only legal status path of a ChangeSet is
PENDING, then APPROVED, then APPLIED.  (i) For an admin caller, apply on a
ChangeSet whose status is PENDING or APPLIED answers Conflict 409 and changes
nothing.  (ii) Apply answers 200 only when the ChangeSet it found was exactly
APPROVED.  (iii) For an admin caller, approve answers Conflict 409 exactly
when the status is APPLIED.  (iv) APPLIED is terminal: neither apply nor
approve (on any target id) removes or rewrites an APPLIED ChangeSet row. -/
theorem claim_C1_changeset_state_machine :
    (∀ (db : Db) (csId : Nat) (actor : Nat) (now : Nat) (cs : ChangeSet),
       db.store.changeSets.find? (fun c => c.id == csId) = some cs →
       assertMembership db.store cs.entityId (some actor) (some ["ADMIN"]) = true →
       (cs.status = "PENDING" ∨ cs.status = "APPLIED") →
       applyChangeSet db csId (some actor) now = (409, db)) ∧
    (∀ (db : Db) (csId : Nat) (a : Option Nat) (now : Nat),
       (applyChangeSet db csId a now).1 = 200 →
       ∃ cs, db.store.changeSets.find? (fun c => c.id == csId) = some cs ∧
         cs.status = "APPROVED") ∧
    (∀ (db : Db) (csId : Nat) (actor : Nat) (now : Nat) (cs : ChangeSet),
       db.store.changeSets.find? (fun c => c.id == csId) = some cs →
       assertMembership db.store cs.entityId (some actor) (some ["ADMIN"]) = true →
       ((approveChangeSet db csId (some actor) now).1 = 409 ↔ cs.status = "APPLIED")) ∧
    (∀ (db : Db) (csId : Nat) (a : Option Nat) (now : Nat) (cs : ChangeSet),
       cs ∈ db.store.changeSets → cs.status = "APPLIED" →
       cs ∈ (applyChangeSet db csId a now).2.store.changeSets ∧
       cs ∈ (approveChangeSet db csId a now).2.store.changeSets) := by
  refine ⟨?_, ?_, ?_, ?_⟩
  · -- (i) apply on PENDING or APPLIED answers (409, db)
    intro db csId actor now cs hfind hadmin hst
    unfold applyChangeSet
    rw [hfind]
    have hbne : (cs.status != "APPROVED") = true := by
      rcases hst with h | h <;> simp [h]
    simp [hadmin, hbne]
  · -- (ii) 200 only from an APPROVED ChangeSet
    intro db csId a now h200
    unfold applyChangeSet at h200
    cases a with
    | none => simp at h200
    | some actor =>
      cases hfind : db.store.changeSets.find? (fun c => c.id == csId) with
      | none => rw [hfind] at h200; simp at h200
      | some cs =>
        rw [hfind] at h200
        by_cases hadm : assertMembership db.store cs.entityId (some actor)
            (some ["ADMIN"]) = false
        · simp [hadm] at h200
        · have hadm' : assertMembership db.store cs.entityId (some actor)
              (some ["ADMIN"]) = true := by
            simpa using hadm
          by_cases hbne : (cs.status != "APPROVED") = true
          · simp [hadm', hbne] at h200
          · have : cs.status = "APPROVED" := by
              simpa using hbne
            exact ⟨cs, rfl, this⟩
  · -- (iii) approve answers 409 exactly on APPLIED
    intro db csId actor now cs hfind hadmin
    constructor
    · intro h409
      by_contra hne
      have hbeq : (cs.status == "APPLIED") = false := by
        simpa using hne
      unfold approveChangeSet at h409
      rw [hfind] at h409
      simp [hadmin, hbeq] at h409
      split at h409 <;> simp_all
    · intro hst
      unfold approveChangeSet
      rw [hfind]
      simp [hadmin, hst]
  · -- (iv) APPLIED rows survive apply and approve verbatim
    intro db csId a now cs hmem hst
    constructor
    · unfold applyChangeSet
      cases a with
      | none => exact hmem
      | some actor =>
        cases hfind : db.store.changeSets.find? (fun c => c.id == csId) with
        | none => exact hmem
        | some cs0 =>
          by_cases hadm : assertMembership db.store cs0.entityId (some actor)
              (some ["ADMIN"]) = false
          · simp [hadm]
            exact hmem
          · have hadm' : assertMembership db.store cs0.entityId (some actor)
                (some ["ADMIN"]) = true := by
              simpa using hadm
            by_cases hbne : (cs0.status != "APPROVED") = true
            · simp [hadm', hbne]
              exact hmem
            · have hst0 : cs0.status = "APPROVED" := by
                simpa using hbne
              have hbne' : (cs0.status != "APPROVED") = false := by
                simpa using hbne
              have hne : cs ≠ cs0 := by
                intro hEq
                rw [hEq, hst0] at hst
                exact absurd hst (by decide)
              have hfind2 : db.store.changeSets.find? (fun c => c.id == cs0.id) =
                  some cs0 := by
                have hp := List.find?_some hfind
                rw [beq_iff_eq] at hp
                rw [← hp] at hfind
                exact hfind
              have hframe := runApplier_frame cs0 db
              cases hrun : runApplier cs0 db with
              | error db1 =>
                rw [hrun] at hframe
                simp only [postDbE] at hframe
                simp [hadm', hbne', hrun]
                rw [hframe.2.1]
                exact hmem
              | ok db1 =>
                rw [hrun] at hframe
                simp only [postDbE] at hframe
                cases htask : createTaskW db1 (bookTask cs0.entityId cs0.id) with
                | error db2 =>
                  have hdb2 := createTaskW_error _ _ _ htask
                  simp [hadm', hbne', hrun, htask, hdb2]
                  rw [hframe.2.1]
                  exact hmem
                | ok pr =>
                  obtain ⟨t, db2⟩ := pr
                  obtain ⟨-, hst2⟩ := createTaskW_ok_store _ _ _ _ htask
                  cases hupd : dbWrite db2 (fun s =>
                    { s with changeSets :=
                        replaceFirst s.changeSets (fun c => c.id == cs0.id) (appliedPatch now) }) with
                  | error db3 =>
                    have hdb3 := dbWrite_error_store _ _ _ hupd
                    simp [hadm', hbne', hrun, htask, hupd, hdb3]
                    rw [hst2]
                    simp
                    rw [hframe.2.1]
                    exact hmem
                  | ok db3 =>
                    have hst3 := dbWrite_ok_store _ _ _ hupd
                    obtain ⟨au, hlog⟩ := logAudit_store db3
                      { entityId := cs0.entityId, actorId := some actor,
                        subjectType := "CHANGESET", subjectId := cs0.id,
                        action := "APPLY_CHANGESET" }
                    simp [hadm', hbne', hrun, htask, hupd]
                    rw [hlog]
                    simp
                    rw [hst3]
                    simp
                    rw [hst2]
                    simp
                    rw [hframe.2.1]
                    exact mem_replaceFirst_of_ne _ _ _ _ _ hmem hfind2 hne
    · unfold approveChangeSet
      cases a with
      | none => exact hmem
      | some actor =>
        cases hfind : db.store.changeSets.find? (fun c => c.id == csId) with
        | none => exact hmem
        | some cs0 =>
          by_cases hadm : assertMembership db.store cs0.entityId (some actor)
              (some ["ADMIN"]) = false
          · simp [hadm]
            exact hmem
          · have hadm' : assertMembership db.store cs0.entityId (some actor)
                (some ["ADMIN"]) = true := by
              simpa using hadm
            by_cases hbeq : (cs0.status == "APPLIED") = true
            · simp [hadm', hbeq]
              exact hmem
            · have hbeq' : (cs0.status == "APPLIED") = false := by
                simpa using hbeq
              have hne : cs ≠ cs0 := by
                intro hEq
                rw [hEq] at hst
                rw [hst] at hbeq'
                simp at hbeq'
              have hfind2 : db.store.changeSets.find? (fun c => c.id == cs0.id) =
                  some cs0 := by
                have hp := List.find?_some hfind
                rw [beq_iff_eq] at hp
                rw [← hp] at hfind
                exact hfind
              cases hupd : dbWrite db (fun s =>
                { s with changeSets :=
                    replaceFirst s.changeSets (fun c => c.id == cs0.id) (approvedPatch now) }) with
              | error db1 =>
                have hdb1 := dbWrite_error_store _ _ _ hupd
                simp [hadm', hbeq', hupd, hdb1]
                exact hmem
              | ok db1 =>
                have hst1 := dbWrite_ok_store _ _ _ hupd
                obtain ⟨au, hlog⟩ := logAudit_store db1
                  { entityId := cs0.entityId, actorId := some actor,
                    subjectType := "CHANGESET", subjectId := cs0.id,
                    action := "APPROVE_CHANGESET" }
                simp [hadm', hbeq', hupd]
                rw [hlog]
                simp
                rw [hst1]
                simp
                exact mem_replaceFirst_of_ne _ _ _ _ _ hmem hfind2 hne
/-- Witness for C1: each conjunct of the state-machine theorem instantiated
on the concrete database `wDb` (apply on the PENDING set 5 conflicts; apply
200 implies APPROVED at set 3; approve conflicts exactly on the APPLIED set 4;
the APPLIED row survives apply and approve of set 3). -/
theorem claim_C1_changeset_state_machine_witness :
    applyChangeSet wDb 5 (some 10) 0 = (409, wDb) ∧
    (∃ cs, wDb.store.changeSets.find? (fun c => c.id == 3) = some cs ∧
      cs.status = "APPROVED") ∧
    ((approveChangeSet wDb 4 (some 10) 0).1 = 409 ↔ wCs4.status = "APPLIED") ∧
    (wCs4 ∈ (applyChangeSet wDb 3 (some 10) 0).2.store.changeSets ∧
     wCs4 ∈ (approveChangeSet wDb 3 (some 10) 0).2.store.changeSets) := by
  refine ⟨?_, ?_, ?_, ?_⟩
  · exact claim_C1_changeset_state_machine.1 wDb 5 10 0 wCs5 (by decide) (by decide)
      (Or.inl rfl)
  · exact claim_C1_changeset_state_machine.2.1 wDb 3 (some 10) 0 (by decide)
  · exact claim_C1_changeset_state_machine.2.2.1 wDb 4 10 0 wCs4 (by decide) (by decide)
  · exact claim_C1_changeset_state_machine.2.2.2 wDb 3 (some 10) 0 wCs4 (by decide) rfl

/-- Claim C2: once apply has succeeded on a ChangeSet (status APPLIED), a
second sequential apply call on the same id by the same admin answers
Conflict 409 and returns the database completely unchanged — so the applier
is not re-run, no inventory row, Task or APPLY_CHANGESET audit entry is
added, and the ChangeSet row itself is untouched. -/
theorem claim_C2_second_apply_conflict (db : Db) (a now now2 : Nat) (cs : ChangeSet)
    (hw : db.writesLeft = none)
    (hfind : db.store.changeSets.find? (fun c => c.id == cs.id) = some cs)
    (hadmin : assertMembership db.store cs.entityId (some a) (some ["ADMIN"]) = true)
    (hst : cs.status = "APPROVED") :
    (applyChangeSet db cs.id (some a) now).1 = 200 ∧
    applyChangeSet (applyChangeSet db cs.id (some a) now).2 cs.id (some a) now2 =
      (409, (applyChangeSet db cs.id (some a) now).2) := by
  obtain ⟨dbA, db2, hrun, hwA, hframe, happ, hw2, hmem2, hcs2, htasks2, hinv2, hau2⟩ :=
    applyChangeSet_ok_char db a now cs hw hfind hadmin hst
  rw [happ]
  refine ⟨rfl, ?_⟩
  have hfind2 : db2.store.changeSets.find? (fun c => c.id == cs.id) =
      some (appliedPatch now cs) := by
    rw [hcs2]
    exact find?_replaceFirst_self _ _ _ cs hfind (by simp [appliedPatch])
  have hadmin2 : assertMembership db2.store cs.entityId (some a)
      (some ["ADMIN"]) = true := by
    rw [assertMembership_congr db.store db2.store _ _ _ hmem2]
    exact hadmin
  unfold applyChangeSet
  rw [hfind2]
  simp [hadmin2, appliedPatch]

/-- Witness for C2: actually applying the APPROVED set 3 of `wDb` (status 200)
and then applying it again, which conflicts and changes nothing. -/
theorem claim_C2_second_apply_conflict_witness :
    (applyChangeSet wDb wCs3.id (some 10) 0).1 = 200 ∧
    applyChangeSet (applyChangeSet wDb wCs3.id (some 10) 0).2 wCs3.id (some 10) 1 =
      (409, (applyChangeSet wDb wCs3.id (some 10) 0).2) :=
  claim_C2_second_apply_conflict wDb 10 0 1 wCs3 rfl (by decide) (by decide) rfl

/-- Claim C8: a MEMBER who is not an ADMIN of the ChangeSet's entity calling
apply on an APPROVED ChangeSet gets Forbidden 403 and the database is
returned completely unchanged — the authorization check precedes every
mutation, so status, inventory, tasks and audit records are all untouched. -/
theorem claim_C8_member_apply_forbidden (db : Db) (a now csId : Nat) (cs : ChangeSet)
    (hfind : db.store.changeSets.find? (fun c => c.id == csId) = some cs)
    (hst : cs.status = "APPROVED")
    (hmember : ({ entityId := cs.entityId, actorId := a, role := "MEMBER" } : Membership) ∈
      db.store.memberships)
    (hnoadmin : ∀ m ∈ db.store.memberships,
      m.entityId = cs.entityId → m.actorId = a → m.role ≠ "ADMIN") :
    applyChangeSet db csId (some a) now = (403, db) := by
  have hadm : assertMembership db.store cs.entityId (some a) (some ["ADMIN"]) = false := by
    by_contra hc
    have htrue : assertMembership db.store cs.entityId (some a) (some ["ADMIN"]) = true := by
      simpa using hc
    unfold assertMembership at htrue
    rw [List.any_eq_true] at htrue
    obtain ⟨m, hm, hp⟩ := htrue
    simp at hp
    exact hnoadmin m hm hp.1.1 hp.1.2 hp.2
  unfold applyChangeSet
  rw [hfind]
  simp [hadm]

/-- Witness for C8: the MEMBER actor 11 of `wDb` applying the APPROVED
set 3 is rejected with 403 and nothing changes. -/
theorem claim_C8_member_apply_forbidden_witness :
    applyChangeSet wDb 3 (some 11) 0 = (403, wDb) :=
  claim_C8_member_apply_forbidden wDb 11 0 3 wCs3 (by decide) rfl (by decide) (by decide)

/-- Claim C6: applying an APPROVED WEEKLY_MEAL_PLAN ChangeSet whose payload
has n task specs creates exactly the n materialized Task rows (status
defaulting to PENDING, type to BUY_RESOURCE, links and dates taken from the
spec) plus one bookkeeping Task(APPLY_CHANGESET, DONE) linked to the
ChangeSet: n + 1 new Task rows in total. -/
theorem claim_C6_weekly_plan_fanout (db : Db) (a now : Nat) (cs : ChangeSet)
    (specs : List TaskSpec)
    (hw : db.writesLeft = none)
    (hfind : db.store.changeSets.find? (fun c => c.id == cs.id) = some cs)
    (hadmin : assertMembership db.store cs.entityId (some a) (some ["ADMIN"]) = true)
    (hst : cs.status = "APPROVED")
    (hty : cs.type = "WEEKLY_MEAL_PLAN")
    (hpl : cs.payload.tasks = some specs) :
    ∃ created book,
      (applyChangeSet db cs.id (some a) now).1 = 200 ∧
      (applyChangeSet db cs.id (some a) now).2.store.tasks =
        db.store.tasks ++ created ++ [book] ∧
      created.length = specs.length ∧
      List.Forall₂ (specMatches cs.entityId) specs created ∧
      book.type = "APPLY_CHANGESET" ∧ book.status = "DONE" ∧
      book.changeSetIds = [cs.id] ∧
      (applyChangeSet db cs.id (some a) now).2.store.tasks.length =
        db.store.tasks.length + (specs.length + 1) := by
  obtain ⟨created, dbA, hpt, hwA, htasks, hinv, hforall⟩ :=
    applyPlanTasks_none cs.entityId specs db hw
  have hrunEq : runApplier cs db = .ok dbA := by
    unfold runApplier applyWeeklyPlan
    simp [hty, hpl, hpt]
  obtain ⟨dbA', db2, hrun, hwA', hframe, happ, hw2, hmem2, hcs2, htasks2, hinv2, hau2⟩ :=
    applyChangeSet_ok_char db a now cs hw hfind hadmin hst
  rw [hrunEq] at hrun
  injection hrun with hEq
  subst hEq
  refine ⟨created, bookTask cs.entityId cs.id dbA.store.nextId, ?_, ?_, ?_, ?_,
    rfl, rfl, rfl, ?_⟩
  · rw [happ]
  · rw [happ]
    simp only [htasks2]
    simp [htasks]
  · exact (List.Forall₂.length_eq hforall).symm
  · exact hforall
  · rw [happ]
    simp only [htasks2]
    have hlen := List.Forall₂.length_eq hforall
    simp [htasks]
    omega

/-- Witness for C6: applying the APPROVED weekly plan set 6 of `wDb`
(two task specs) yields 200 and exactly three new Task rows. -/
theorem claim_C6_weekly_plan_fanout_witness :
    ∃ created book,
      (applyChangeSet wDb wCs6.id (some 10) 0).1 = 200 ∧
      (applyChangeSet wDb wCs6.id (some 10) 0).2.store.tasks =
        wDb.store.tasks ++ created ++ [book] ∧
      created.length = ([{ type := some "BUY_RESOURCE" },
                         { type := some "COOK_RECIPE_STEP",
                           status := some "IN_PROGRESS" }] : List TaskSpec).length ∧
      List.Forall₂ (specMatches wCs6.entityId)
        [{ type := some "BUY_RESOURCE" },
         { type := some "COOK_RECIPE_STEP", status := some "IN_PROGRESS" }] created ∧
      book.type = "APPLY_CHANGESET" ∧ book.status = "DONE" ∧
      book.changeSetIds = [wCs6.id] ∧
      (applyChangeSet wDb wCs6.id (some 10) 0).2.store.tasks.length =
        wDb.store.tasks.length +
          (([{ type := some "BUY_RESOURCE" },
             { type := some "COOK_RECIPE_STEP",
               status := some "IN_PROGRESS" }] : List TaskSpec).length + 1) :=
  claim_C6_weekly_plan_fanout wDb 10 0 wCs6
    [{ type := some "BUY_RESOURCE" },
     { type := some "COOK_RECIPE_STEP", status := some "IN_PROGRESS" }]
    rfl (by decide) (by decide) rfl rfl rfl

/-- Claim C3: per-item semantics of the INVENTORY_DIFF applier.
(i) An item missing resourceId or locationId is skipped: no error, no store
change.  (ii) A TO_BUY item creates exactly one Task(BUY_RESOURCE, PENDING,
tags to-buy) whose metadata carries inventoryItemId/resourceId/locationId/
quantity (default 1), and mutates no InventoryItem.  (iii) A DELETE item — or
one whose numeric quantity is ≤ 0 — deletes every InventoryItem row matching
(entity, resource, location), absence not being an error, and touches no
Task.  (iv) Otherwise the row keyed by (resource, entity, location) is
upserted with the given quantity and expiry as a full replacement, not an
increment: afterwards exactly one row holds the key and it carries exactly
the item's quantity and expiry. -/
theorem claim_C3_inventory_diff_items :
    (∀ (e : Nat) (item : InvItem) (db : Db),
       item.resourceId = none ∨ item.locationId = none →
       applyInvStep e item db = .ok (none, db)) ∧
    (∀ (e : Nat) (item : InvItem) (db : Db) (rid lid : Nat),
       db.writesLeft = none →
       item.resourceId = some rid → item.locationId = some lid →
       item.action = some "TO_BUY" →
       ∃ t db',
         applyInvStep e item db = .ok (some (.toBuy t.id), db') ∧
         db'.store.tasks = db.store.tasks ++ [t] ∧
         t.type = "BUY_RESOURCE" ∧ t.status = "PENDING" ∧ t.tags = ["to-buy"] ∧
         t.metadata = some { inventoryItemId := item.inventoryItemId,
                             resourceId := some rid, locationId := some lid,
                             quantity := some (item.quantity.getD 1) } ∧
         db'.store.inventory = db.store.inventory) ∧
    (∀ (e : Nat) (item : InvItem) (db : Db) (rid lid : Nat),
       db.writesLeft = none →
       item.resourceId = some rid → item.locationId = some lid →
       item.action ≠ some "TO_BUY" →
       (item.action = some "DELETE" ∨ ∃ q, item.quantity = some q ∧ q ≤ 0) →
       ∃ db',
         applyInvStep e item db = .ok (some (.deleted rid lid), db') ∧
         db'.store.inventory = db.store.inventory.filter (fun it => !invKey e rid lid it) ∧
         db'.store.tasks = db.store.tasks) ∧
    (∀ (e : Nat) (item : InvItem) (db : Db) (rid lid : Nat) (q : Int) (ex : Nat),
       db.writesLeft = none →
       item.resourceId = some rid → item.locationId = some lid →
       item.action ≠ some "TO_BUY" → item.action ≠ some "DELETE" →
       item.quantity = some q → 0 < q → item.expiresAt = some ex →
       db.store.inventory.countP (invKey e rid lid) ≤ 1 →
       ∃ r db',
         applyInvStep e item db = .ok (some (.upserted r), db') ∧
         db'.store.tasks = db.store.tasks ∧
         db'.store.inventory.find? (invKey e rid lid) = some r ∧
         r.quantity = q ∧ r.expiresAt = some ex ∧
         db'.store.inventory.countP (invKey e rid lid) = 1) := by
  refine ⟨?_, ?_, ?_, ?_⟩
  · -- (i) skip
    intro e item db h
    rcases h with h | h
    · unfold applyInvStep
      rw [h]
    · cases hr : item.resourceId with
      | none => unfold applyInvStep; rw [hr]
      | some rid => unfold applyInvStep; rw [hr, h]
  · -- (ii) TO_BUY
    intro e item db rid lid hw hr hl ha
    have hb : (item.action == some "TO_BUY") = true := by simp [ha]
    have heq : applyInvStep e item db =
        .ok (some (.toBuy (toBuyTask e item rid lid db.store db.store.nextId).id),
          { store :=
              { db.store with
                  tasks := db.store.tasks ++ [toBuyTask e item rid lid db.store db.store.nextId],
                  nextId := db.store.nextId + 1 },
            writesLeft := none }) := by
      unfold applyInvStep
      rw [hr, hl]
      simp only [hb, if_true]
      rw [createTaskW_none db _ hw]
    exact ⟨toBuyTask e item rid lid db.store db.store.nextId, _, heq, by simp, rfl, rfl,
      rfl, rfl, by simp⟩
  · -- (iii) DELETE / non-positive quantity
    intro e item db rid lid hw hr hl hnotbuy hdel
    have hb1 : (item.action == some "TO_BUY") = false := by
      simpa using hnotbuy
    have hb2 : isDeleteItem item = true := by
      unfold isDeleteItem
      rcases hdel with h | ⟨q, hq, hq0⟩
      · simp [h]
      · rw [hq]
        simp [hq0]
    have heq : applyInvStep e item db =
        .ok (some (.deleted rid lid),
          { store :=
              { db.store with
                  inventory := db.store.inventory.filter (fun it => !invKey e rid lid it) },
            writesLeft := none }) := by
      unfold applyInvStep
      rw [hr, hl]
      simp only [hb1, hb2, if_true, Bool.false_eq_true, if_false]
      rw [dbWrite_none db _ hw]
    exact ⟨_, heq, by simp, by simp⟩
  · -- (iv) upsert: full replacement under key uniqueness
    intro e item db rid lid q ex hw hr hl hnotbuy hnotdel hq hqpos hex huniq
    have hb1 : (item.action == some "TO_BUY") = false := by
      simpa using hnotbuy
    have hb2 : isDeleteItem item = false := by
      unfold isDeleteItem
      rw [hq]
      have : ¬ q ≤ 0 := by omega
      simp [this]
      simpa using hnotdel
    cases hfound : db.store.inventory.find? (invKey e rid lid) with
    | some old =>
      have hkey : invKey e rid lid old = true := List.find?_some hfound
      have hkey' : invKey e rid lid (upsertPatch item old) = true := by
        simpa [invKey, upsertPatch] using hkey
      have heq : applyInvStep e item db =
          .ok (some (.upserted (upsertPatch item old)),
            { store :=
                { db.store with
                    inventory := replaceFirst db.store.inventory (invKey e rid lid)
                      (upsertPatch item) },
              writesLeft := none }) := by
        unfold applyInvStep
        rw [hr, hl]
        simp only [hb1, hb2, Bool.false_eq_true, if_false, hfound]
        rw [dbWrite_none db _ hw]
      refine ⟨upsertPatch item old, _, heq, by simp, ?_, ?_, ?_, ?_⟩
      · simp only []
        exact find?_replaceFirst_self _ _ _ old hfound hkey'
      · simp [upsertPatch, hq]
      · simp [upsertPatch, hex]
      · simp only []
        rw [countP_replaceFirst _ _ _ _ (fun x => by simp [invKey, upsertPatch])]
        have hpos : 0 < db.store.inventory.countP (invKey e rid lid) := by
          rw [List.countP_pos]
          exact ⟨old, List.mem_of_find?_eq_some hfound, hkey⟩
        omega
    | none =>
      have hkey : invKey e rid lid (upsertRow e rid lid item db.store.nextId) = true := by
        simp [invKey, upsertRow]
      have heq : applyInvStep e item db =
          .ok (some (.upserted (upsertRow e rid lid item db.store.nextId)),
            { store :=
                { db.store with
                    inventory := db.store.inventory ++
                      [upsertRow e rid lid item db.store.nextId],
                    nextId := db.store.nextId + 1 },
              writesLeft := none }) := by
        unfold applyInvStep
        rw [hr, hl]
        simp only [hb1, hb2, Bool.false_eq_true, if_false, hfound]
        rw [dbWrite_none db _ hw]
      refine ⟨upsertRow e rid lid item db.store.nextId, _, heq, by simp, ?_, ?_, ?_, ?_⟩
      · simp only []
        rw [find?_append_none _ _ _ hfound]
        simp [hkey]
      · simp [upsertRow, hq]
      · simp [upsertRow, hex]
      · simp only []
        rw [countP_append_singleton, countP_eq_zero_of_find?_none _ _ hfound]
        simp [hkey]

/-- Witness for C3: the four branches at concrete items on `wDb`: an empty
item is skipped; a TO_BUY item for (resource 1, location 2); a DELETE item;
and a plain quantity-5 item with an expiry. -/
theorem claim_C3_inventory_diff_items_witness :
    applyInvStep 0 {} wDb = .ok (none, wDb) ∧
    (∃ t db',
       applyInvStep 0 { resourceId := some 1, locationId := some 2,
                        quantity := some 2, action := some "TO_BUY" } wDb =
         .ok (some (.toBuy t.id), db') ∧
       db'.store.tasks = wDb.store.tasks ++ [t] ∧
       t.type = "BUY_RESOURCE" ∧ t.status = "PENDING" ∧ t.tags = ["to-buy"] ∧
       t.metadata = some { inventoryItemId := none, resourceId := some 1,
                           locationId := some 2, quantity := some 2 } ∧
       db'.store.inventory = wDb.store.inventory) ∧
    (∃ db',
       applyInvStep 0 { resourceId := some 1, locationId := some 2,
                        action := some "DELETE" } wDb =
         .ok (some (.deleted 1 2), db') ∧
       db'.store.inventory = wDb.store.inventory.filter (fun it => !invKey 0 1 2 it) ∧
       db'.store.tasks = wDb.store.tasks) ∧
    (∃ r db',
       applyInvStep 0 { resourceId := some 1, locationId := some 2,
                        quantity := some 5, expiresAt := some 99 } wDb =
         .ok (some (.upserted r), db') ∧
       db'.store.tasks = wDb.store.tasks ∧
       db'.store.inventory.find? (invKey 0 1 2) = some r ∧
       r.quantity = 5 ∧ r.expiresAt = some 99 ∧
       db'.store.inventory.countP (invKey 0 1 2) = 1) := by
  refine ⟨?_, ?_, ?_, ?_⟩
  · exact claim_C3_inventory_diff_items.1 0 {} wDb (Or.inl rfl)
  · exact claim_C3_inventory_diff_items.2.1 0 _ wDb 1 2 rfl rfl rfl rfl
  · exact claim_C3_inventory_diff_items.2.2.1 0 _ wDb 1 2 rfl rfl rfl
      (by decide) (Or.inl rfl)
  · exact claim_C3_inventory_diff_items.2.2.2 0 _ wDb 1 2 5 99 rfl rfl rfl
      (by decide) (by decide) rfl (by decide) rfl (by decide)

/-- Claim C4: setting a BUY_RESOURCE task to DONE from a non-DONE status,
when its metadata carries an inventoryItemId, upserts the InventoryItem with
that id: an existing row's quantity is incremented by `metadata.quantity`
(default 1 when absent), a missing row is created from the metadata's
resourceId/locationId with that quantity.  The task row itself is now DONE,
and — the exactly-once guard — any further status update to DONE of a task
already DONE leaves the inventory untouched. -/
theorem claim_C4_buy_resource_done_increment :
    (∀ (db : Db) (tid a : Nat) (t : Task) (meta : TaskMeta) (invId : Nat),
       db.writesLeft = none →
       db.store.tasks.find? (fun x => x.id == tid) = some t →
       t.type = "BUY_RESOURCE" →
       t.status ≠ "DONE" →
       t.metadata = some meta →
       meta.inventoryItemId = some invId →
       (setTaskStatus db tid "DONE" (some a)).1 = 200 ∧
       (setTaskStatus db tid "DONE" (some a)).2.store.tasks.find? (fun x => x.id == tid) =
         some (statusPatch "DONE" t) ∧
       (setTaskStatus db tid "DONE" (some a)).2.writesLeft = none ∧
       (db.store.inventory.find? (fun it => it.id == invId) = none →
         (setTaskStatus db tid "DONE" (some a)).2.store.inventory =
           db.store.inventory ++ [buyRow t meta invId]) ∧
       (∀ row, db.store.inventory.find? (fun it => it.id == invId) = some row →
         (setTaskStatus db tid "DONE" (some a)).2.store.inventory =
           replaceFirst db.store.inventory (fun it => it.id == invId)
             (incPatch (meta.quantity.getD 1)) ∧
         (setTaskStatus db tid "DONE" (some a)).2.store.inventory.find?
             (fun it => it.id == invId) = some (incPatch (meta.quantity.getD 1) row))) ∧
    (∀ (db : Db) (tid a : Nat) (t : Task),
       db.writesLeft = none →
       db.store.tasks.find? (fun x => x.id == tid) = some t →
       t.status = "DONE" →
       (setTaskStatus db tid "DONE" (some a)).1 = 200 ∧
       (setTaskStatus db tid "DONE" (some a)).2.store.inventory = db.store.inventory) := by
  constructor
  · intro db tid a t meta invId hw hfind hty hnd hmeta hinv
    have hbne : (t.status != "DONE") = true := by simp [hnd]
    have hpt : ((statusPatch "DONE" t).id == tid) = true := by
      have := List.find?_some hfind
      simpa [statusPatch] using this
    cases hscrut : db.store.inventory.find? (fun it => it.id == invId) with
    | none =>
      have hany : db.store.inventory.any (fun it => it.id == invId) = false := by
        rw [List.any_eq_false]
        intro x hx
        have := List.find?_eq_none.mp hscrut x hx
        simpa using this
      have heq : setTaskStatus db tid "DONE" (some a) =
          (200,
            { store :=
                { db.store with
                    tasks := replaceFirst db.store.tasks (fun x => x.id == tid)
                      (statusPatch "DONE"),
                    inventory := db.store.inventory ++ [buyRow t meta invId],
                    audits := db.store.audits ++
                      [{ entityId := t.entityId, actorId := some a, subjectType := "TASK",
                         subjectId := t.id, action := "UPDATE_TASK_STATUS" }] },
              writesLeft := none }) := by
        unfold setTaskStatus
        rw [hfind, dbWrite_none db _ hw]
        unfold incrementInventoryForTask
        simp only [hmeta, hinv, hty, hbne]
        rw [dbWrite_none _ _ rfl]
        simp [hany, logAudit_none, validTaskStatus]
      rw [heq]
      refine ⟨rfl, ?_, rfl, fun _ => rfl, ?_⟩
      · simp only []
        exact find?_replaceFirst_self _ _ _ t hfind hpt
      · intro row hrow
        cases hrow
    | some row =>
      have hany : db.store.inventory.any (fun it => it.id == invId) = true := by
        rw [List.any_eq_true]
        have hp := List.find?_some hscrut
        exact ⟨row, List.mem_of_find?_eq_some hscrut, hp⟩
      have heq : setTaskStatus db tid "DONE" (some a) =
          (200,
            { store :=
                { db.store with
                    tasks := replaceFirst db.store.tasks (fun x => x.id == tid)
                      (statusPatch "DONE"),
                    inventory := replaceFirst db.store.inventory (fun it => it.id == invId)
                      (incPatch (meta.quantity.getD 1)),
                    audits := db.store.audits ++
                      [{ entityId := t.entityId, actorId := some a, subjectType := "TASK",
                         subjectId := t.id, action := "UPDATE_TASK_STATUS" }] },
              writesLeft := none }) := by
        unfold setTaskStatus
        rw [hfind, dbWrite_none db _ hw]
        unfold incrementInventoryForTask
        simp only [hmeta, hinv, hty, hbne]
        rw [dbWrite_none _ _ rfl]
        simp [hany, logAudit_none, validTaskStatus]
      rw [heq]
      refine ⟨rfl, ?_, rfl, ?_, ?_⟩
      · simp only []
        exact find?_replaceFirst_self _ _ _ t hfind hpt
      · intro hnone
        cases hnone
      · intro row' hrow'
        injection hrow' with hrow'
        subst hrow'
        refine ⟨rfl, ?_⟩
        simp only []
        refine find?_replaceFirst_self _ _ _ row hscrut ?_
        have := List.find?_some hscrut
        simpa [incPatch] using this
  · intro db tid a t hw hfind hst
    have hbne : (t.status != "DONE") = false := by simp [hst]
    have heq : setTaskStatus db tid "DONE" (some a) =
        (200,
          { store :=
              { db.store with
                  tasks := replaceFirst db.store.tasks (fun x => x.id == tid)
                    (statusPatch "DONE"),
                  audits := db.store.audits ++
                    [{ entityId := t.entityId, actorId := some a, subjectType := "TASK",
                       subjectId := t.id, action := "UPDATE_TASK_STATUS" }] },
            writesLeft := none }) := by
      unfold setTaskStatus
      rw [hfind, dbWrite_none db _ hw]
      simp [hbne, logAudit_none, validTaskStatus]
    rw [heq]
    exact ⟨rfl, rfl⟩

/-- Witness for C4: completing the BUY_RESOURCE task 7 of `wDb` (metadata:
item 9, quantity 3) creates inventory row 9 with quantity 3; the task is then
DONE, and a redundant DONE update leaves inventory unchanged. -/
theorem claim_C4_buy_resource_done_increment_witness :
    ((setTaskStatus wDb 7 "DONE" (some 10)).1 = 200 ∧
     (setTaskStatus wDb 7 "DONE" (some 10)).2.store.tasks.find? (fun x => x.id == 7) =
       some (statusPatch "DONE"
         { id := 7, entityId := 0, type := "BUY_RESOURCE", status := "PENDING",
           metadata := some { inventoryItemId := some 9, resourceId := some 1,
                              locationId := some 2, quantity := some 3 } }) ∧
     (setTaskStatus wDb 7 "DONE" (some 10)).2.writesLeft = none ∧
     (wDb.store.inventory.find? (fun it => it.id == 9) = none →
       (setTaskStatus wDb 7 "DONE" (some 10)).2.store.inventory =
         wDb.store.inventory ++
           [buyRow { id := 7, entityId := 0, type := "BUY_RESOURCE", status := "PENDING",
                     metadata := some { inventoryItemId := some 9, resourceId := some 1,
                                        locationId := some 2, quantity := some 3 } }
             { inventoryItemId := some 9, resourceId := some 1,
               locationId := some 2, quantity := some 3 } 9]) ∧
     (∀ row, wDb.store.inventory.find? (fun it => it.id == 9) = some row →
       (setTaskStatus wDb 7 "DONE" (some 10)).2.store.inventory =
         replaceFirst wDb.store.inventory (fun it => it.id == 9) (incPatch 3) ∧
       (setTaskStatus wDb 7 "DONE" (some 10)).2.store.inventory.find?
           (fun it => it.id == 9) = some (incPatch 3 row))) ∧
    ((setTaskStatus (setTaskStatus wDb 7 "DONE" (some 10)).2 7 "DONE" (some 10)).1 = 200 ∧
     (setTaskStatus (setTaskStatus wDb 7 "DONE" (some 10)).2 7 "DONE"
         (some 10)).2.store.inventory =
       (setTaskStatus wDb 7 "DONE" (some 10)).2.store.inventory) := by
  constructor
  · exact claim_C4_buy_resource_done_increment.1 wDb 7 10
      { id := 7, entityId := 0, type := "BUY_RESOURCE", status := "PENDING",
        metadata := some { inventoryItemId := some 9, resourceId := some 1,
                           locationId := some 2, quantity := some 3 } }
      { inventoryItemId := some 9, resourceId := some 1, locationId := some 2,
        quantity := some 3 } 9
      rfl (by decide) rfl (by decide) rfl rfl
  · exact claim_C4_buy_resource_done_increment.2 (setTaskStatus wDb 7 "DONE" (some 10)).2
      7 10
      (statusPatch "DONE"
        { id := 7, entityId := 0, type := "BUY_RESOURCE", status := "PENDING",
          metadata := some { inventoryItemId := some 9, resourceId := some 1,
                             locationId := some 2, quantity := some 3 } })
      (by decide) (by decide) rfl

/-- Transport of the key-uniqueness invariant along an inventory equality. -/
theorem invAtMostOne_congr (s s' : Store) (hinv : s'.inventory = s.inventory)
    (h : invAtMostOne s) : invAtMostOne s' := by
  intro e rid lid
  rw [hinv]
  exact h e rid lid

/-- One INVENTORY_DIFF item preserves at-most-one-row-per-key, with any
fault budget: deletes only remove rows, updates patch a row in place without
changing its key, and a create only fires when the key had no row. -/
theorem applyInvStep_inv (e : Nat) (item : InvItem) (db : Db)
    (h : invAtMostOne db.store) :
    invAtMostOne (postDb (applyInvStep e item db)).store := by
  unfold applyInvStep
  split
  · split
    · -- TO_BUY: tasks only
      split
      next d heq =>
        rw [createTaskW_error _ _ _ heq]
        exact h
      next t d heq =>
        obtain ⟨-, hst⟩ := createTaskW_ok_store _ _ _ _ heq
        simp only [postDb]
        exact invAtMostOne_congr _ _ (by simp [hst]) h
    · split
      · -- DELETE: filtering only lowers counts
        split
        next d heq =>
          rw [dbWrite_error_store _ _ _ heq]
          exact h
        next d heq =>
          have hst := dbWrite_ok_store _ _ _ heq
          simp only [postDb]
          intro e' r' l'
          rw [hst]
          simp only []
          exact le_trans (countP_filter_le _ _ _) (h e' r' l')
      · -- upsert
        split
        next old hfound =>
          split
          next d heq =>
            rw [dbWrite_error_store _ _ _ heq]
            exact h
          next d heq =>
            have hst := dbWrite_ok_store _ _ _ heq
            simp only [postDb]
            intro e' r' l'
            rw [hst]
            simp only []
            rw [countP_replaceFirst _ _ _ _ (fun x => by simp [invKey, upsertPatch])]
            exact h e' r' l'
        next hfound =>
          split
          next d heq =>
            rw [dbWrite_error_store _ _ _ heq]
            exact h
          next d heq =>
            have hst := dbWrite_ok_store _ _ _ heq
            simp only [postDb]
            intro e' r' l'
            rw [hst]
            simp only []
            rw [countP_append_singleton]
            split
            next hk =>
              simp [invKey, upsertRow] at hk
              obtain ⟨⟨hk1, hk2⟩, hk3⟩ := hk
              subst hk1
              subst hk2
              subst hk3
              rw [countP_eq_zero_of_find?_none _ _ hfound]
            next hk =>
              simp only [Nat.add_zero]
              exact h e' r' l'
  · exact h

/-- The whole INVENTORY_DIFF item loop preserves at-most-one-row-per-key. -/
theorem applyInvItems_inv (e : Nat) (items : List InvItem) (db : Db)
    (h : invAtMostOne db.store) :
    invAtMostOne (postDb (applyInvItems e items db)).store := by
  induction items generalizing db with
  | nil => exact h
  | cons item rest ih =>
    unfold applyInvItems
    cases hstep : applyInvStep e item db with
    | error d =>
      have h1 := applyInvStep_inv e item db h
      rw [hstep] at h1
      exact h1
    | ok pr =>
      obtain ⟨r, d⟩ := pr
      have h1 := applyInvStep_inv e item db h
      rw [hstep] at h1
      simp only [postDb] at h1
      have h2 := ih d h1
      cases hrest : applyInvItems e rest d with
      | error d2 =>
        rw [hrest] at h2
        simp only [postDb] at h2
        simp only [hstep, hrest, postDb]
        exact h2
      | ok pr2 =>
        obtain ⟨rs, d2⟩ := pr2
        rw [hrest] at h2
        simp only [postDb] at h2
        simp only [hstep, hrest, postDb]
        exact h2

/-- Materializing weekly-plan tasks never touches the inventory table. -/
theorem applyPlanTasks_inventory (e : Nat) (specs : List TaskSpec) (db : Db) :
    (postDb (applyPlanTasks e specs db)).store.inventory = db.store.inventory := by
  induction specs generalizing db with
  | nil => rfl
  | cons sp rest ih =>
    unfold applyPlanTasks
    cases hstep : createTaskW db (planTask e sp) with
    | error d =>
      simp only [hstep, postDb]
      rw [createTaskW_error _ _ _ hstep]
    | ok pr =>
      obtain ⟨t, d⟩ := pr
      obtain ⟨-, hst⟩ := createTaskW_ok_store _ _ _ _ hstep
      have h1 : d.store.inventory = db.store.inventory := by simp [hst]
      have h2 := ih d
      cases hrest : applyPlanTasks e rest d with
      | error d2 =>
        rw [hrest] at h2
        simp only [postDb] at h2
        simp only [hstep, hrest, postDb]
        rw [h2, h1]
      | ok pr2 =>
        obtain ⟨rs, d2⟩ := pr2
        rw [hrest] at h2
        simp only [postDb] at h2
        simp only [hstep, hrest, postDb]
        rw [h2, h1]

/-- The applier dispatch preserves at-most-one-row-per-key. -/
theorem runApplier_inv (cs : ChangeSet) (db : Db) (h : invAtMostOne db.store) :
    invAtMostOne (postDbE (runApplier cs db)).store := by
  unfold runApplier applyInventoryDiff applyWeeklyPlan
  split
  · have h1 := applyInvItems_inv cs.entityId (cs.payload.items.getD []) db h
    cases hx : applyInvItems cs.entityId (cs.payload.items.getD []) db with
    | error d =>
      rw [hx] at h1
      exact h1
    | ok pr =>
      obtain ⟨r, d⟩ := pr
      rw [hx] at h1
      exact h1
  · split
    · have h1 := applyPlanTasks_inventory cs.entityId (cs.payload.tasks.getD []) db
      cases hx : applyPlanTasks cs.entityId (cs.payload.tasks.getD []) db with
      | error d =>
        rw [hx] at h1
        exact invAtMostOne_congr _ _ h1 h
      | ok pr =>
        obtain ⟨r, d⟩ := pr
        rw [hx] at h1
        exact invAtMostOne_congr _ _ h1 h
    · exact h

/-- Claim C7: every apply call preserves the at-most-one-InventoryItem-row
per (resource, entity, location) invariant; in particular repeated
INVENTORY_DIFF applications replace the quantity of the existing row rather
than adding a second row for the same triple. -/
theorem claim_C7_inventory_key_unique (db : Db) (csId : Nat) (a : Option Nat) (now : Nat)
    (h : invAtMostOne db.store) :
    invAtMostOne (applyChangeSet db csId a now).2.store := by
  unfold applyChangeSet
  cases a with
  | none => exact h
  | some actor =>
    cases hfind : db.store.changeSets.find? (fun c => c.id == csId) with
    | none => exact h
    | some cs0 =>
      by_cases hadm : assertMembership db.store cs0.entityId (some actor)
          (some ["ADMIN"]) = false
      · simp [hadm]
        exact h
      · have hadm' : assertMembership db.store cs0.entityId (some actor)
            (some ["ADMIN"]) = true := by
          simpa using hadm
        by_cases hbne : (cs0.status != "APPROVED") = true
        · simp [hadm', hbne]
          exact h
        · have hbne' : (cs0.status != "APPROVED") = false := by
            simpa using hbne
          have hrunInv := runApplier_inv cs0 db h
          cases hrun : runApplier cs0 db with
          | error db1 =>
            rw [hrun] at hrunInv
            simp [hadm', hbne', hrun]
            exact hrunInv
          | ok db1 =>
            rw [hrun] at hrunInv
            simp only [postDbE] at hrunInv
            cases htask : createTaskW db1 (bookTask cs0.entityId cs0.id) with
            | error db2 =>
              have hdb2 := createTaskW_error _ _ _ htask
              simp [hadm', hbne', hrun, htask, hdb2]
              exact hrunInv
            | ok pr =>
              obtain ⟨t, db2⟩ := pr
              obtain ⟨-, hst2⟩ := createTaskW_ok_store _ _ _ _ htask
              have hinv2 : invAtMostOne db2.store :=
                invAtMostOne_congr _ _ (by simp [hst2]) hrunInv
              cases hupd : dbWrite db2 (fun s =>
                { s with changeSets :=
                    replaceFirst s.changeSets (fun c => c.id == cs0.id) (appliedPatch now) }) with
              | error db3 =>
                have hdb3 := dbWrite_error_store _ _ _ hupd
                simp [hadm', hbne', hrun, htask, hupd, hdb3]
                exact hinv2
              | ok db3 =>
                have hst3 := dbWrite_ok_store _ _ _ hupd
                have hinv3 : invAtMostOne db3.store :=
                  invAtMostOne_congr _ _ (by simp [hst3]) hinv2
                obtain ⟨au, hlog⟩ := logAudit_store db3
                  { entityId := cs0.entityId, actorId := some actor,
                    subjectType := "CHANGESET", subjectId := cs0.id,
                    action := "APPLY_CHANGESET" }
                simp [hadm', hbne', hrun, htask, hupd]
                exact invAtMostOne_congr _ _ (by simp [hlog]) hinv3

/-- Witness for C7: `wDb` (empty inventory) satisfies the invariant and so
does the state after actually applying the INVENTORY_DIFF set 3. -/
theorem claim_C7_inventory_key_unique_witness :
    invAtMostOne (applyChangeSet wDb 3 (some 10) 0).2.store :=
  claim_C7_inventory_key_unique wDb 3 (some 10) 0
    (by intro e rid lid; simp [wDb, wStore])

/-- Full characterization of the common tail of `processLensRun` when writes
cannot fail: one new PENDING ChangeSet (fresh id), one new Question batched
under it (next fresh id), the LensRun patched to COMPLETED in place, one
audit entry, and the id counter advanced by two. -/
theorem processLensRunCore_none (db : Db) (lensRun : LensRun) (entityId : Nat)
    (pl : Payload) (ty : String) (a : Option Nat) (hw : db.writesLeft = none) :
    processLensRunCore db lensRun entityId pl ty a =
      .ok ((completedPatch pl lensRun,
            lensChangeSet entityId lensRun ty pl db.store.nextId,
            lensQuestion entityId db.store.nextId ty (db.store.nextId + 1)),
        { store :=
            { db.store with
                changeSets := db.store.changeSets ++
                  [lensChangeSet entityId lensRun ty pl db.store.nextId],
                questions := db.store.questions ++
                  [lensQuestion entityId db.store.nextId ty (db.store.nextId + 1)],
                lensRuns := replaceFirst db.store.lensRuns
                  (fun lr => lr.id == lensRun.id) (completedPatch pl),
                audits := db.store.audits ++
                  [{ entityId := entityId, actorId := a, subjectType := "CHANGESET",
                     subjectId := db.store.nextId,
                     action := "CREATE_CHANGESET_FROM_LENS_RUN" }],
                nextId := db.store.nextId + 2 },
          writesLeft := none }) := by
  unfold processLensRunCore
  rw [createChangeSetW_none db _ hw]
  simp only [createQuestionW_none, dbWrite_none, logAudit_none]
  simp [lensChangeSet, lensQuestion]

/-- Characterization of one `processLensRun` call when writes cannot fail:
the payload and ChangeSet type are chosen by the lens type, and the common
tail runs as in `processLensRunCore_none`. -/
theorem processLensRun_none_char (db : Db) (i : Nat) (a : Option Nat) (now : Nat)
    (lr : LensRun) (tr : Track) (ln : Lens)
    (hw : db.writesLeft = none)
    (hlr : db.store.lensRuns.find? (fun x => x.id == i) = some lr)
    (htr : db.store.tracks.find? (fun t => t.id == lr.trackId) = some tr)
    (hln : db.store.lenses.find? (fun l => l.id == lr.lensId) = some ln) :
    ∃ pl,
      processLensRun db i a now =
        .ok ((completedPatch pl lr,
              lensChangeSet tr.entityId lr
                (if (ln.type == "MEAL_PLAN_LENS") = true then "WEEKLY_MEAL_PLAN"
                 else "INVENTORY_DIFF") pl db.store.nextId,
              lensQuestion tr.entityId db.store.nextId
                (if (ln.type == "MEAL_PLAN_LENS") = true then "WEEKLY_MEAL_PLAN"
                 else "INVENTORY_DIFF") (db.store.nextId + 1)),
          { store :=
              { db.store with
                  changeSets := db.store.changeSets ++
                    [lensChangeSet tr.entityId lr
                      (if (ln.type == "MEAL_PLAN_LENS") = true then "WEEKLY_MEAL_PLAN"
                       else "INVENTORY_DIFF") pl db.store.nextId],
                  questions := db.store.questions ++
                    [lensQuestion tr.entityId db.store.nextId
                      (if (ln.type == "MEAL_PLAN_LENS") = true then "WEEKLY_MEAL_PLAN"
                       else "INVENTORY_DIFF") (db.store.nextId + 1)],
                  lensRuns := replaceFirst db.store.lensRuns
                    (fun x => x.id == lr.id) (completedPatch pl),
                  audits := db.store.audits ++
                    [{ entityId := tr.entityId, actorId := a, subjectType := "CHANGESET",
                       subjectId := db.store.nextId,
                       action := "CREATE_CHANGESET_FROM_LENS_RUN" }],
                  nextId := db.store.nextId + 2 },
            writesLeft := none }) := by
  by_cases hty : (ln.type == "MEAL_PLAN_LENS") = true
  · refine ⟨buildWeeklyPlanPayload none now, ?_⟩
    unfold processLensRun
    simp only [hlr, htr, hln]
    simp only [hty, if_true]
    rw [processLensRunCore_none db lr tr.entityId _ _ a hw]
  · have hty' : (ln.type == "MEAL_PLAN_LENS") = false := by simpa using hty
    refine ⟨buildInventoryDiffPayload db.store tr.entityId, ?_⟩
    unfold processLensRun
    simp only [hlr, htr, hln]
    simp only [hty', Bool.false_eq_true, if_false]
    rw [processLensRunCore_none db lr tr.entityId _ _ a hw]

/-- Claim C5: `processLensRun` on an existing LensRun creates exactly one new
ChangeSet (status PENDING) and exactly one Question whose batchId is the new
ChangeSet's id, and marks the LensRun COMPLETED with rawOutput set to the
synthesized payload.  No status precondition is checked, so a second call on
the same LensRun id succeeds as well and produces a second, distinct
ChangeSet. -/
theorem claim_C5_process_lens_run (db : Db) (i : Nat) (a : Option Nat) (now now2 : Nat)
    (lr : LensRun) (tr : Track) (ln : Lens)
    (hw : db.writesLeft = none)
    (hlr : db.store.lensRuns.find? (fun x => x.id == i) = some lr)
    (htr : db.store.tracks.find? (fun t => t.id == lr.trackId) = some tr)
    (hln : db.store.lenses.find? (fun l => l.id == lr.lensId) = some ln) :
    ∃ pl cs q db1,
      processLensRun db i a now = .ok ((completedPatch pl lr, cs, q), db1) ∧
      db1.store.changeSets = db.store.changeSets ++ [cs] ∧
      cs.status = "PENDING" ∧
      db1.store.questions = db.store.questions ++ [q] ∧
      q.batchId = some cs.id ∧
      db1.store.lensRuns.find? (fun x => x.id == i) = some (completedPatch pl lr) ∧
      (completedPatch pl lr).status = "COMPLETED" ∧
      (completedPatch pl lr).rawOutput = some pl ∧
      ∃ lr2 cs2 q2 db2,
        processLensRun db1 i a now2 = .ok ((lr2, cs2, q2), db2) ∧
        db2.store.changeSets = db.store.changeSets ++ [cs, cs2] ∧
        cs2.status = "PENDING" ∧
        cs.id ≠ cs2.id := by
  have hi := List.find?_some hlr
  rw [beq_iff_eq] at hi
  subst hi
  obtain ⟨pl, hcall1⟩ := processLensRun_none_char db lr.id a now lr tr ln hw hlr htr hln
  have hplr : ((completedPatch pl lr).id == lr.id) = true := by
    simp [completedPatch]
  refine ⟨pl, _, _, _, hcall1, by simp, rfl, by simp, rfl, ?_, rfl, rfl, ?_⟩
  · have h2 := find?_replaceFirst_self db.store.lensRuns
      (fun x => x.id == lr.id) (completedPatch pl) lr hlr hplr
    simpa using h2
  · obtain ⟨pl2, hcall2⟩ := processLensRun_none_char
      { store :=
          { db.store with
              changeSets := db.store.changeSets ++
                [lensChangeSet tr.entityId lr
                  (if (ln.type == "MEAL_PLAN_LENS") = true then "WEEKLY_MEAL_PLAN"
                   else "INVENTORY_DIFF") pl db.store.nextId],
              questions := db.store.questions ++
                [lensQuestion tr.entityId db.store.nextId
                  (if (ln.type == "MEAL_PLAN_LENS") = true then "WEEKLY_MEAL_PLAN"
                   else "INVENTORY_DIFF") (db.store.nextId + 1)],
              lensRuns := replaceFirst db.store.lensRuns
                (fun x => x.id == lr.id) (completedPatch pl),
              audits := db.store.audits ++
                [{ entityId := tr.entityId, actorId := a, subjectType := "CHANGESET",
                   subjectId := db.store.nextId,
                   action := "CREATE_CHANGESET_FROM_LENS_RUN" }],
              nextId := db.store.nextId + 2 },
        writesLeft := none }
      lr.id a now2 (completedPatch pl lr) tr ln rfl
      (by
        have h2 := find?_replaceFirst_self db.store.lensRuns
          (fun x => x.id == lr.id) (completedPatch pl) lr hlr hplr
        simpa using h2)
      (by simpa [completedPatch] using htr)
      (by simpa [completedPatch] using hln)
    refine ⟨_, _, _, _, hcall2, ?_, rfl, ?_⟩
    · simp
    · intro hEq
      simp [lensChangeSet] at hEq

/-- Witness for C5: processing the PENDING LensRun 8 of `wDb` twice produces
two distinct PENDING ChangeSets, one Question per ChangeSet batched under it,
and a COMPLETED LensRun carrying the synthesized payload. -/
theorem claim_C5_process_lens_run_witness :
    ∃ pl cs q db1,
      processLensRun wDb 8 (some 10) 50 = .ok ((completedPatch pl wLr8, cs, q), db1) ∧
      db1.store.changeSets = wDb.store.changeSets ++ [cs] ∧
      cs.status = "PENDING" ∧
      db1.store.questions = wDb.store.questions ++ [q] ∧
      q.batchId = some cs.id ∧
      db1.store.lensRuns.find? (fun x => x.id == 8) = some (completedPatch pl wLr8) ∧
      (completedPatch pl wLr8).status = "COMPLETED" ∧
      (completedPatch pl wLr8).rawOutput = some pl ∧
      ∃ lr2 cs2 q2 db2,
        processLensRun db1 8 (some 10) 51 = .ok ((lr2, cs2, q2), db2) ∧
        db2.store.changeSets = wDb.store.changeSets ++ [cs, cs2] ∧
        cs2.status = "PENDING" ∧
        cs.id ≠ cs2.id :=
  claim_C5_process_lens_run wDb 8 (some 10) 50 51 wLr8 wTrack5 wLens6
    rfl (by decide) (by decide) (by decide)

/-- Claim C10: the applier and the companion task run before the status
update, and there are no transactions.  (General part) Whenever an apply call
fails with 500 — in particular when an applier-side store write throws — the
ChangeSet table is completely unchanged (status still APPROVED, no appliedAt)
and no APPLY_CHANGESET audit entry was written.  (Concrete part) On a
two-item INVENTORY_DIFF whose second write throws: the first item's row
persists (not rolled back), and a retry without the fault succeeds with 200,
re-running the applier over the whole payload. -/
theorem claim_C10_applier_before_status_update :
    (∀ (db : Db) (csId : Nat) (a : Option Nat) (now : Nat),
       (applyChangeSet db csId a now).1 = 500 →
       (applyChangeSet db csId a now).2.store.changeSets = db.store.changeSets ∧
       (applyChangeSet db csId a now).2.store.audits = db.store.audits) ∧
    ((applyChangeSet fDb 3 (some 10) 0).1 = 500 ∧
     (applyChangeSet fDb 3 (some 10) 0).2.store.changeSets = fDb.store.changeSets ∧
     (applyChangeSet fDb 3 (some 10) 0).2.store.audits = fDb.store.audits ∧
     (applyChangeSet fDb 3 (some 10) 0).2.store.inventory =
       [{ id := 50, entityId := 0, resourceId := some 1, locationId := some 2,
          quantity := 5 }] ∧
     (applyChangeSet { store := (applyChangeSet fDb 3 (some 10) 0).2.store,
                       writesLeft := none } 3 (some 10) 1).1 = 200 ∧
     (applyChangeSet { store := (applyChangeSet fDb 3 (some 10) 0).2.store,
                       writesLeft := none } 3 (some 10) 1).2.store.inventory =
       [{ id := 50, entityId := 0, resourceId := some 1, locationId := some 2,
          quantity := 5 },
        { id := 51, entityId := 0, resourceId := some 4, locationId := some 2,
          quantity := 7 }]) := by
  constructor
  · intro db csId a now h500
    unfold applyChangeSet at h500 ⊢
    cases a with
    | none => simp at h500
    | some actor =>
      cases hfind : db.store.changeSets.find? (fun c => c.id == csId) with
      | none => rw [hfind] at h500; simp at h500
      | some cs0 =>
        rw [hfind] at h500
        by_cases hadm : assertMembership db.store cs0.entityId (some actor)
            (some ["ADMIN"]) = false
        · simp [hadm] at h500
        · have hadm' : assertMembership db.store cs0.entityId (some actor)
              (some ["ADMIN"]) = true := by
            simpa using hadm
          by_cases hbne : (cs0.status != "APPROVED") = true
          · simp [hadm', hbne] at h500
          · have hbne' : (cs0.status != "APPROVED") = false := by
              simpa using hbne
            have hframe := runApplier_frame cs0 db
            cases hrun : runApplier cs0 db with
            | error db1 =>
              rw [hrun] at hframe
              simp only [postDbE] at hframe
              simp [hadm', hbne', hrun]
              exact ⟨hframe.2.1, hframe.2.2.2.2.2.2.2.2.2⟩
            | ok db1 =>
              rw [hrun] at hframe
              simp only [postDbE] at hframe
              cases htask : createTaskW db1 (bookTask cs0.entityId cs0.id) with
              | error db2 =>
                have hdb2 := createTaskW_error _ _ _ htask
                simp [hadm', hbne', hrun, htask, hdb2]
                exact ⟨hframe.2.1, hframe.2.2.2.2.2.2.2.2.2⟩
              | ok pr =>
                obtain ⟨t, db2⟩ := pr
                obtain ⟨-, hst2⟩ := createTaskW_ok_store _ _ _ _ htask
                cases hupd : dbWrite db2 (fun s =>
                  { s with changeSets :=
                      replaceFirst s.changeSets (fun c => c.id == cs0.id) (appliedPatch now) }) with
                | error db3 =>
                  have hdb3 := dbWrite_error_store _ _ _ hupd
                  simp [hadm', hbne', hrun, htask, hupd, hdb3]
                  rw [hst2]
                  constructor
                  · simp
                    exact hframe.2.1
                  · simp
                    exact hframe.2.2.2.2.2.2.2.2.2
                | ok db3 =>
                  simp [hadm', hbne', hrun, htask, hupd] at h500
  · refine ⟨by decide, by decide, by decide, by decide, by decide, by decide⟩

/-- Witness for C10: the general 500-frame applied to the concrete faulty
apply on `fDb`, whose status really is 500. -/
theorem claim_C10_applier_before_status_update_witness :
    (applyChangeSet fDb 3 (some 10) 0).2.store.changeSets = fDb.store.changeSets ∧
    (applyChangeSet fDb 3 (some 10) 0).2.store.audits = fDb.store.audits :=
  claim_C10_applier_before_status_update.1 fDb 3 (some 10) 0 (by decide)

/-- `ensureSensor` under a no-fault budget: succeeds, leaves tracks alone,
and at most appends one sensor of exactly the provisioned type. -/
theorem ensureSensor_none (e : Nat) (nm ty : String) (db : Db)
    (hw : db.writesLeft = none) :
    ∃ db', ensureSensor e nm ty db = .ok db' ∧ db'.writesLeft = none ∧
      db'.store.tracks = db.store.tracks ∧
      (db'.store.sensors = db.store.sensors ∨
       db'.store.sensors = db.store.sensors ++
         [{ id := db.store.nextId, entityId := e, name := nm, type := ty }]) := by
  unfold ensureSensor
  split
  · exact ⟨db, rfl, hw, rfl, Or.inl rfl⟩
  · rw [dbWrite_none db _ hw]
    exact ⟨_, rfl, rfl, rfl, Or.inr rfl⟩

/-- `ensureLens` under a no-fault budget: succeeds and touches neither the
sensor nor the track table. -/
theorem ensureLens_none (ty nm : String) (db : Db) (hw : db.writesLeft = none) :
    ∃ db', ensureLens ty nm db = .ok db' ∧ db'.writesLeft = none ∧
      db'.store.tracks = db.store.tracks ∧
      db'.store.sensors = db.store.sensors := by
  unfold ensureLens
  split
  · exact ⟨db, rfl, hw, rfl, rfl⟩
  · rw [dbWrite_none db _ hw]
    exact ⟨_, rfl, rfl, rfl, rfl⟩

/-- `ensureDefaultLenses` under a no-fault budget: succeeds and touches
neither the sensor nor the track table. -/
theorem ensureDefaultLenses_split (db : Db) (hw : db.writesLeft = none) :
    ∃ db', ensureDefaultLenses db = .ok db' ∧ db'.writesLeft = none ∧
      db'.store.tracks = db.store.tracks ∧
      db'.store.sensors = db.store.sensors := by
  obtain ⟨d1, h1, hw1, htr1, hs1⟩ := ensureLens_none "INVENTORY_LENS" "Inventory Lens" db hw
  obtain ⟨d2, h2, hw2, htr2, hs2⟩ :=
    ensureLens_none "MEAL_PLAN_LENS" "Weekly Meal Plan Lens" d1 hw1
  refine ⟨d2, ?_, hw2, htr2.trans htr1, hs2.trans hs1⟩
  unfold ensureDefaultLenses
  rw [h1]
  exact h2

/-- A sensor lookup by (entity, type) still fails after appending a sensor
of a different type. -/
theorem sensor_find?_none_append (l : List Sensor) (e : Nat) (st : String) (x : Sensor)
    (hl : l.find? (fun sn => sn.entityId == e && sn.type == st) = none)
    (hx : x.type ≠ st) :
    (l ++ [x]).find? (fun sn => sn.entityId == e && sn.type == st) = none := by
  rw [find?_append_none _ _ _ hl]
  have hxf : (x.entityId == e && x.type == st) = false := by
    simp [hx]
  simp [List.find?, hxf]

/-- Counterexample for C9 as stated: on the concrete database `wDb`, creating
a track with the unknown sensor type SMART_FRIDGE — a type that still has no
Sensor row after default provisioning — answers HTTP 400, not the 404 that a
NotFound error maps to; no Track is created. -/
theorem claim_C9_counterexample :
    (createTrack wDb 0 (some 11)
      { actorId := 11, mediaUrl := "m", sensorType := "SMART_FRIDGE" }).1 = 400 ∧
    (createTrack wDb 0 (some 11)
      { actorId := 11, mediaUrl := "m", sensorType := "SMART_FRIDGE" }).2.store.sensors.find?
        (fun sn => sn.entityId == 0 && sn.type == "SMART_FRIDGE") = none ∧
    (createTrack wDb 0 (some 11)
      { actorId := 11, mediaUrl := "m", sensorType := "SMART_FRIDGE" }).2.store.tracks =
      wDb.store.tracks ∧
    (400 : Nat) ≠ 404 := by
  refine ⟨by decide, by decide, by decide, by decide⟩

/-- Claim C9 (amended): when, after auto-provisioning of the default sensors,
no Sensor of the requested type exists for the entity, `createTrack` fails
with a 400 ValidationError-style response ("Sensor type not found for
entity") — not a 404 NotFound — and creates no Track. -/
theorem claim_C9_create_track_unknown_sensor (db : Db) (e aid : Nat) (req : TrackReq)
    (hw : db.writesLeft = none)
    (hmem : assertMembership db.store e (some aid) none = true)
    (hst1 : req.sensorType ≠ "MOBILE_CAMERA")
    (hst2 : req.sensorType ≠ "WEB_UPLOAD")
    (hnos : db.store.sensors.find?
      (fun sn => sn.entityId == e && sn.type == req.sensorType) = none) :
    (createTrack db e (some aid) req).1 = 400 ∧
    (createTrack db e (some aid) req).2.store.tracks = db.store.tracks := by
  obtain ⟨db1, h1, hw1, htr1, hs1⟩ :=
    ensureSensor_none e "Mobile camera" "MOBILE_CAMERA" db hw
  obtain ⟨db2, h2, hw2, htr2, hs2⟩ :=
    ensureSensor_none e "Web upload" "WEB_UPLOAD" db1 hw1
  obtain ⟨db3, h3, hw3, htr3, hs3⟩ := ensureDefaultLenses_split db2 hw2
  have hfind1 : db1.store.sensors.find?
      (fun sn => sn.entityId == e && sn.type == req.sensorType) = none := by
    rcases hs1 with h | h
    · rw [h]; exact hnos
    · rw [h]
      exact sensor_find?_none_append _ _ _ _ hnos (by simpa using hst1.symm)
  have hfind2 : db2.store.sensors.find?
      (fun sn => sn.entityId == e && sn.type == req.sensorType) = none := by
    rcases hs2 with h | h
    · rw [h]; exact hfind1
    · rw [h]
      exact sensor_find?_none_append _ _ _ _ hfind1 (by simpa using hst2.symm)
  have hfind3 : db3.store.sensors.find?
      (fun sn => sn.entityId == e && sn.type == req.sensorType) = none := by
    rw [hs3]; exact hfind2
  have hens : ensureDefaultSensors e db = .ok db2 := by
    unfold ensureDefaultSensors
    rw [h1]
    exact h2
  unfold createTrack
  simp only [hmem, hens, h3, hfind3]
  simp [htr3, htr2, htr1]

/-- Witness for C9 (amended) at the concrete database `wDb` and the unknown
sensor type SMART_FRIDGE. -/
theorem claim_C9_create_track_unknown_sensor_witness :
    (createTrack wDb 0 (some 11)
      { actorId := 11, mediaUrl := "m", sensorType := "SMART_FRIDGE" }).1 = 400 ∧
    (createTrack wDb 0 (some 11)
      { actorId := 11, mediaUrl := "m", sensorType := "SMART_FRIDGE" }).2.store.tracks =
      wDb.store.tracks :=
  claim_C9_create_track_unknown_sensor wDb 0 11
    { actorId := 11, mediaUrl := "m", sensorType := "SMART_FRIDGE" }
    (by decide) (by decide) (by decide) (by decide) (by decide)

end Ledger
